import Mathlib

/-!
OpenStack machine driver: lifecycle orchestration

A shallow embedding of `drivers/openstack/openstack.go`.

* The driver record `Driver` carries the fields the orchestration code reads
  or writes.  The methods use `d.NetworkName` and `d.NetworkId` as strings,
  so the record has these two string fields.
* The provider client (`d.client`, an interface value), the file system, the
  key generator and the random-id generator are external collaborators.  They
  are the fields of `Env σ`: every operation is a function on an arbitrary
  collaborator state `σ`, so a collaborator may answer differently on every
  call.  A collaborator reads the driver it is handed and does not write it.
* A Go `error` is `Option GoError` (`none` is `nil`); a Go `(T, error)` result
  is `Except GoError T`.
* Every method is a function `St σ → result × St σ`.  `St σ` holds the driver
  record, the collaborator state and the trace of the collaborator calls and
  log lines issued so far, oldest first.
-/

namespace Openstack

/-! ## Data model -/

/-- Go error values, by dynamic type.  `ErrUnexpectedResponseCode` is a
`*gophercloud.ErrUnexpectedResponseCode`, the type `Remove` asserts, with its
`Actual` status code.  `ErrDefault404` is a `gophercloud.ErrDefault404`, the
value the client library returns for a response with status 404: a struct
that embeds an `ErrUnexpectedResponseCode` and is not of the asserted pointer
type.  Every other error value is an `errorString` carrying its message. -/
inductive GoError where
  | ErrUnexpectedResponseCode (Actual : Int) (text : String)
  | ErrDefault404 (text : String)
  | errorString (text : String)
  deriving DecidableEq, Repr

/-- The `Error()` method of an error value. -/
def GoError.Error : GoError → String
  | .ErrUnexpectedResponseCode _ text => text
  | .ErrDefault404 text => text
  | .errorString text => text

/-- Embeds `http.StatusNotFound`. -/
def StatusNotFound : Int := 404

/-- Modelled from the spec: the address type of an address record, declared
with the client (`Fixed`, `Floating`). -/
inductive AddressType where
  | Fixed
  | Floating
  deriving DecidableEq, Repr

/-- Modelled from the spec: the address record `IpAddress` declared with the
client, `{Address, AddressType, Version}`. -/
structure IpAddress where
  Address : String
  AddressType : AddressType
  Version : Int
  deriving DecidableEq, Repr

/-- Modelled from the spec: the floating IP record `FloatingIP` declared with
the client, `{Ip, PortId}`; `FloatingIP{}` is the record of empty strings. -/
structure FloatingIP where
  Ip : String := ""
  PortId : String := ""
  deriving DecidableEq, Repr

/-- The driver record: the fields of `Driver` and of the embedded
`BaseDriver` that the orchestration code uses. -/
structure Driver where
  IPAddress : String := ""
  MachineName : String := ""
  AuthUrl : String := ""
  ActiveTimeout : Int := 200
  DomainId : String := ""
  DomainName : String := ""
  UserId : String := ""
  Username : String := ""
  Password : String := ""
  TenantName : String := ""
  TenantId : String := ""
  TenantDomainName : String := ""
  TenantDomainId : String := ""
  UserDomainName : String := ""
  UserDomainId : String := ""
  ApplicationCredentialId : String := ""
  ApplicationCredentialName : String := ""
  ApplicationCredentialSecret : String := ""
  EndpointType : String := ""
  MachineId : String := ""
  FlavorName : String := ""
  FlavorId : String := ""
  ImageName : String := ""
  ImageId : String := ""
  KeyPairName : String := ""
  NetworkName : String := ""
  NetworkId : String := ""
  PrivateKeyFile : String := ""
  FloatingIpPool : String := ""
  ComputeNetwork : Bool := false
  FloatingIpPoolId : String := ""
  IpVersion : Int := 0
  ExistingKey : Bool := false
  deriving DecidableEq, Repr

/-- The `clientconfig.AuthInfo` record built by `parseAuthConfig`. -/
structure AuthInfo where
  AuthURL : String
  UserID : String
  Username : String
  Password : String
  ProjectID : String
  ProjectName : String
  DomainID : String
  DomainName : String
  ProjectDomainID : String
  ProjectDomainName : String
  UserDomainID : String
  UserDomainName : String
  ApplicationCredentialID : String
  ApplicationCredentialName : String
  ApplicationCredentialSecret : String
  deriving DecidableEq, Repr

/-- The `clientconfig.ClientOpts` record built by `parseAuthConfig`. -/
structure ClientOpts where
  EnvPrefix : String
  AuthInfo : AuthInfo
  deriving DecidableEq, Repr

/-- One observable step: a call of a collaborator (with the arguments other
than the driver) or a log line (its message, without the structured fields). -/
inductive Event where
  | Authenticate
  | InitComputeClient
  | InitNetworkClient
  | GetNetworkID
  | GetFlavorID
  | GetImageID
  | GetFloatingIPPoolID
  | CreateInstance
  | DeleteInstance
  | WaitForInstanceStatus (status : String)
  | GetInstanceIPAddresses
  | GetInstanceState
  | GetFloatingIPs
  | AssignFloatingIP (floatingIP : FloatingIP)
  | GetPublicKey (keyPairName : String)
  | CreateKeyPair (name : String) (publicKey : String)
  | DeleteKeyPair (name : String)
  | ReadFile (path : String)
  | WriteFile (path : String) (data : String) (perm : Nat)
  | GenerateSSHKey (path : String)
  | GenerateRandomID
  | Sleep (seconds : Nat)
  | log (msg : String)
  deriving DecidableEq, Repr

/-- The external collaborators, over a collaborator state `σ`: the `Client`
interface behind `d.client`, `ioutil.ReadFile` / `ioutil.WriteFile`,
`ssh.GenerateSSHKey`, `mcnutils.GenerateRandomID`, `BaseDriver.GetSSHKeyPath`
and `clientconfig.AuthOptions`.  File contents are strings. -/
structure Env (σ : Type) where
  Authenticate : Driver → σ → Option GoError × σ
  InitComputeClient : Driver → σ → Option GoError × σ
  InitNetworkClient : Driver → σ → Option GoError × σ
  GetNetworkID : Driver → σ → Except GoError String × σ
  GetFlavorID : Driver → σ → Except GoError String × σ
  GetImageID : Driver → σ → Except GoError String × σ
  GetFloatingIPPoolID : Driver → σ → Except GoError String × σ
  CreateInstance : Driver → σ → Except GoError String × σ
  DeleteInstance : Driver → σ → Option GoError × σ
  WaitForInstanceStatus : Driver → String → σ → Option GoError × σ
  GetInstanceIPAddresses : Driver → σ → Except GoError (List IpAddress) × σ
  GetInstanceState : Driver → σ → Except GoError String × σ
  GetFloatingIPs : Driver → σ → Except GoError (List FloatingIP) × σ
  /-- The record behind the pointer argument is returned as the client left it. -/
  AssignFloatingIP : Driver → FloatingIP → σ → (Option GoError × FloatingIP) × σ
  GetPublicKey : String → σ → Except GoError String × σ
  CreateKeyPair : Driver → String → String → σ → Option GoError × σ
  DeleteKeyPair : Driver → String → σ → Option GoError × σ
  ReadFile : String → σ → Except GoError String × σ
  WriteFile : String → String → Nat → σ → Option GoError × σ
  GenerateSSHKey : String → σ → Option GoError × σ
  GenerateRandomID : σ → String × σ
  GetSSHKeyPath : Driver → String
  AuthOptions : ClientOpts → Except GoError Unit

/-- The state threaded through the driver's methods. -/
structure St (σ : Type) where
  d : Driver
  w : σ
  trace : List Event

variable {σ : Type} {α : Type}

/-- Append one event to the trace. -/
def St.emit (s : St σ) (e : Event) : St σ :=
  { d := s.d, w := s.w, trace := s.trace ++ [e] }

/-- A call of `log.Debug`, `log.Info` or `log.Warn`. -/
def St.log (s : St σ) (msg : String) : St σ :=
  s.emit (Event.log msg)

/-- Call a collaborator: record the event, take the answer, keep the
collaborator's new state. -/
def St.call (s : St σ) (e : Event) (f : σ → α × σ) : α × St σ :=
  ((f s.w).1, { d := s.d, w := (f s.w).2, trace := s.trace ++ [e] })

/-! ## Error messages (the `error...` format constants, applied) -/

/-- Embeds `fmt.Sprintf(errorMandatoryOption, a, b)`. -/
def errorMandatoryOption (a b : String) : String :=
  a ++ " must be specified using the CLI option " ++ b

/-- Embeds `fmt.Sprintf(errorExclusiveOptions, a, b)`. -/
def errorExclusiveOptions (a b : String) : String :=
  "Either " ++ a ++ " or " ++ b ++ " must be specified, not both"

/-- Embeds `fmt.Sprintf(errorBothOptions, a, b)`. -/
def errorBothOptions (a b : String) : String :=
  "Both " ++ a ++ " and " ++ b ++ " must be specified"

/-- The constant `errorWrongEndpointType`. -/
def errorWrongEndpointType : String :=
  "Endpoint type must be 'publicURL', 'adminURL' or 'internalURL'"

/-- Embeds `fmt.Sprintf(errorUnknownFlavorName, a)`. -/
def errorUnknownFlavorName (a : String) : String :=
  "Unable to find flavor named " ++ a

/-- Embeds `fmt.Sprintf(errorUnknownImageName, a)`. -/
def errorUnknownImageName (a : String) : String :=
  "Unable to find image named " ++ a

/-- Embeds `fmt.Sprintf(errorUnknownNetworkName, a)`. -/
def errorUnknownNetworkName (a : String) : String :=
  "Unable to find network named " ++ a

/-- Embeds `fmt.Errorf` with an already formatted message. -/
def Errorf (msg : String) : GoError :=
  GoError.errorString msg

/-! ## Sessions -/

/-- Embeds `Driver.initCompute`. -/
def initCompute (c : Env σ) (s : St σ) : Option GoError × St σ :=
  match s.call Event.Authenticate (c.Authenticate s.d) with
  | (some err, s1) => (some err, s1)
  | (none, s1) =>
    match s1.call Event.InitComputeClient (c.InitComputeClient s1.d) with
    | (some err, s2) => (some err, s2)
    | (none, s2) => (none, s2)

/-- Embeds `Driver.initNetwork`. -/
def initNetwork (c : Env σ) (s : St σ) : Option GoError × St σ :=
  match s.call Event.Authenticate (c.Authenticate s.d) with
  | (some err, s1) => (some err, s1)
  | (none, s1) =>
    match s1.call Event.InitNetworkClient (c.InitNetworkClient s1.d) with
    | (some err, s2) => (some err, s2)
    | (none, s2) => (none, s2)

/-! ## Remove -/

/-- The state in which `Driver.Remove` initialises its compute session:
after its two entry log lines. -/
def Remove.entry (s : St σ) : St σ :=
  (s.log "deleting instance...").log "Deleting OpenStack instance..."

/-- The handling of the `DeleteInstance` result in `Driver.Remove`: `none`
when `Remove` goes on to the key pair, the error it returns otherwise.  The
type assertion `err.(*gophercloud.ErrUnexpectedResponseCode)` holds for the
first kind of error only; for every other dynamic type `Remove` returns the
error. -/
def Remove.afterDelete (r : Option GoError) (s : St σ) : Option GoError × St σ :=
  match r with
  | none => (none, s)
  | some (GoError.ErrUnexpectedResponseCode Actual text) =>
    if Actual = StatusNotFound then
      (none, s.log "Remote instance does not exist, proceeding with removing local reference")
    else
      (some (GoError.ErrUnexpectedResponseCode Actual text), s)
  | some (GoError.ErrDefault404 text) => (some (GoError.ErrDefault404 text), s)
  | some (GoError.errorString text) => (some (GoError.errorString text), s)

/-- Embeds `Driver.Remove`. -/
def Remove (c : Env σ) (s : St σ) : Option GoError × St σ :=
  match initCompute c (Remove.entry s) with
  | (some err, s1) => (some err, s1)
  | (none, s1) =>
    match s1.call Event.DeleteInstance (c.DeleteInstance s1.d) with
    | (r, s2) =>
      match Remove.afterDelete r s2 with
      | (some err, s3) => (some err, s3)
      | (none, s3) =>
        if !s3.d.ExistingKey then
          match (s3.log "deleting key pair...").call (Event.DeleteKeyPair s3.d.KeyPairName)
              (c.DeleteKeyPair s3.d s3.d.KeyPairName) with
          | (some err, s4) => (some err, s4)
          | (none, s4) => (none, s4)
        else
          (none, s3)

/-- Embeds `Driver.failedToCreate`; the combined error is
`fmt.Errorf("%v: %v", err, e)`. -/
def failedToCreate (c : Env σ) (err : GoError) (s : St σ) : Option GoError × St σ :=
  match Remove c s with
  | (some e, s1) => (some (Errorf (err.Error ++ ": " ++ e.Error)), s1)
  | (none, s1) => (some err, s1)

/-! ## Configuration check -/

/-- Embeds `Driver.parseAuthConfig`. -/
def parseAuthConfig (c : Env σ) (d : Driver) : Except GoError Unit :=
  c.AuthOptions
    { EnvPrefix := "_"
      AuthInfo :=
        { AuthURL := d.AuthUrl
          UserID := d.UserId
          Username := d.Username
          Password := d.Password
          ProjectID := d.TenantId
          ProjectName := d.TenantName
          DomainID := d.DomainId
          DomainName := d.DomainName
          ProjectDomainID := d.TenantDomainId
          ProjectDomainName := d.TenantDomainName
          UserDomainID := d.UserDomainId
          UserDomainName := d.UserDomainName
          ApplicationCredentialID := d.ApplicationCredentialId
          ApplicationCredentialName := d.ApplicationCredentialName
          ApplicationCredentialSecret := d.ApplicationCredentialSecret } }

/-- Embeds `Driver.checkConfig`. -/
def checkConfig (c : Env σ) (s : St σ) : Option GoError × St σ :=
  match parseAuthConfig c s.d with
  | .error err => (some err, s)
  | .ok _ =>
    if s.d.FlavorName = "" ∧ s.d.FlavorId = "" then
      (some (Errorf (errorMandatoryOption "Flavor name or Flavor id"
        "--openstack-flavor-name or --openstack-flavor-id")), s)
    else if s.d.FlavorName ≠ "" ∧ s.d.FlavorId ≠ "" then
      (some (Errorf (errorExclusiveOptions "Flavor name" "Flavor id")), s)
    else if s.d.ImageName = "" ∧ s.d.ImageId = "" then
      (some (Errorf (errorMandatoryOption "Image name or Image id"
        "--openstack-image-name or --openstack-image-id")), s)
    else if s.d.ImageName ≠ "" ∧ s.d.ImageId ≠ "" then
      (some (Errorf (errorExclusiveOptions "Image name" "Image id")), s)
    else if s.d.NetworkName ≠ "" ∧ s.d.NetworkId ≠ "" then
      (some (Errorf (errorExclusiveOptions "Network name" "Network id")), s)
    else if s.d.EndpointType ≠ "" ∧ (s.d.EndpointType ≠ "publicURL" ∧
        s.d.EndpointType ≠ "adminURL" ∧ s.d.EndpointType ≠ "internalURL") then
      (some (Errorf errorWrongEndpointType), s)
    else if (s.d.KeyPairName ≠ "" ∧ s.d.PrivateKeyFile = "") ∨
        (s.d.KeyPairName = "" ∧ s.d.PrivateKeyFile ≠ "") then
      (some (Errorf (errorBothOptions "KeyPairName" "PrivateKeyFile")), s)
    else
      (none, s)

/-! ## Name resolution -/

/-- Embeds `Driver.resolveIds`, the network block. -/
def resolveIds.network (c : Env σ) (s : St σ) : Option GoError × St σ :=
  if s.d.NetworkName ≠ "" ∧ s.d.ComputeNetwork = false then
    match initNetwork c s with
    | (some err, s1) => (some err, s1)
    | (none, s1) =>
      match s1.call Event.GetNetworkID (c.GetNetworkID s1.d) with
      | (.error err, s2) => (some err, s2)
      | (.ok networkID, s2) =>
        if networkID = "" then
          (some (Errorf (errorUnknownNetworkName s2.d.NetworkName)), s2)
        else
          (none, St.log { d := { s2.d with NetworkId := networkID }, w := s2.w, trace := s2.trace }
            "Found network id using its name")
  else
    (none, s)

/-- Embeds `Driver.resolveIds`, the flavor block. -/
def resolveIds.flavor (c : Env σ) (s : St σ) : Option GoError × St σ :=
  if s.d.FlavorName ≠ "" then
    match initCompute c s with
    | (some err, s1) => (some err, s1)
    | (none, s1) =>
      match s1.call Event.GetFlavorID (c.GetFlavorID s1.d) with
      | (.error err, s2) => (some err, s2)
      | (.ok flavorID, s2) =>
        if flavorID = "" then
          (some (Errorf (errorUnknownFlavorName s2.d.FlavorName)), s2)
        else
          (none, St.log { d := { s2.d with FlavorId := flavorID }, w := s2.w, trace := s2.trace }
            "Found flavor id using its name")
  else
    (none, s)

/-- Embeds `Driver.resolveIds`, the image block. -/
def resolveIds.image (c : Env σ) (s : St σ) : Option GoError × St σ :=
  if s.d.ImageName ≠ "" then
    match initCompute c s with
    | (some err, s1) => (some err, s1)
    | (none, s1) =>
      match s1.call Event.GetImageID (c.GetImageID s1.d) with
      | (.error err, s2) => (some err, s2)
      | (.ok imageID, s2) =>
        if imageID = "" then
          (some (Errorf (errorUnknownImageName s2.d.ImageName)), s2)
        else
          (none, St.log { d := { s2.d with ImageId := imageID }, w := s2.w, trace := s2.trace }
            "Found image id using its name")
  else
    (none, s)

/-- Embeds `Driver.resolveIds`, the floating IP pool block. -/
def resolveIds.floatingIpPool (c : Env σ) (s : St σ) : Option GoError × St σ :=
  if s.d.FloatingIpPool ≠ "" ∧ s.d.ComputeNetwork = false then
    match initNetwork c s with
    | (some err, s1) => (some err, s1)
    | (none, s1) =>
      match s1.call Event.GetFloatingIPPoolID (c.GetFloatingIPPoolID s1.d) with
      | (.error err, s2) => (some err, s2)
      | (.ok f, s2) =>
        if f = "" then
          (some (Errorf (errorUnknownNetworkName s2.d.FloatingIpPool)), s2)
        else
          (none, St.log { d := { s2.d with FloatingIpPoolId := f }, w := s2.w, trace := s2.trace }
            "Found floating IP pool id using its name")
  else
    (none, s)

/-- Embeds `Driver.resolveIds`: the four blocks in source order, each returning
early on error. -/
def resolveIds (c : Env σ) (s : St σ) : Option GoError × St σ :=
  match resolveIds.network c s with
  | (some err, s1) => (some err, s1)
  | (none, s1) =>
    match resolveIds.flavor c s1 with
    | (some err, s2) => (some err, s2)
    | (none, s2) =>
      match resolveIds.image c s2 with
      | (some err, s3) => (some err, s3)
      | (none, s3) => resolveIds.floatingIpPool c s3

/-! ## Key pair -/

/-- Embeds `Driver.privateSSHKeyPath`. -/
def privateSSHKeyPath (c : Env σ) (d : Driver) : String :=
  c.GetSSHKeyPath d

/-- Embeds `Driver.publicSSHKeyPath`. -/
def publicSSHKeyPath (c : Env σ) (d : Driver) : String :=
  c.GetSSHKeyPath d ++ ".pub"

/-- Embeds `sanitizeKeyPairName`: `strings.Replace(s, ".", "_", -1)`, every
occurrence of the one-character pattern replaced. -/
def sanitizeKeyPairName (s : String) : String :=
  String.mk (s.data.map (fun ch => if ch = '.' then '_' else ch))

/-- Embeds `Driver.loadSSHKey`. -/
def loadSSHKey (c : Env σ) (s : St σ) : Option GoError × St σ :=
  match initCompute c (s.log "Loading Key Pair") with
  | (some err, s1) => (some err, s1)
  | (none, s1) =>
    match (s1.log "Loading Private Key from").call (Event.ReadFile s1.d.PrivateKeyFile)
        (c.ReadFile s1.d.PrivateKeyFile) with
    | (.error err, s2) => (some err, s2)
    | (.ok privateKey, s2) =>
      match s2.call (Event.GetPublicKey s2.d.KeyPairName) (c.GetPublicKey s2.d.KeyPairName) with
      | (.error err, s3) => (some err, s3)
      | (.ok publicKey, s3) =>
        match s3.call (Event.WriteFile (privateSSHKeyPath c s3.d) privateKey 0o600)
            (c.WriteFile (privateSSHKeyPath c s3.d) privateKey 0o600) with
        | (some err, s4) => (some err, s4)
        | (none, s4) =>
          match s4.call (Event.WriteFile (publicSSHKeyPath c s4.d) publicKey 0o600)
              (c.WriteFile (publicSSHKeyPath c s4.d) publicKey 0o600) with
          | (some err, s5) => (some err, s5)
          | (none, s5) => (none, s5)

/-- Embeds `Driver.createSSHKey` after the key pair name is sanitized: key
generation, reading the public key, session, registration. -/
def createSSHKey.body (c : Env σ) (s0 : St σ) : Option GoError × St σ :=
  match s0.call (Event.GenerateSSHKey (c.GetSSHKeyPath s0.d))
      (c.GenerateSSHKey (c.GetSSHKeyPath s0.d)) with
  | (some err, s1) => (some err, s1)
  | (none, s1) =>
    match s1.call (Event.ReadFile (publicSSHKeyPath c s1.d))
        (c.ReadFile (publicSSHKeyPath c s1.d)) with
    | (.error err, s2) => (some err, s2)
    | (.ok publicKey, s2) =>
      match initCompute c s2 with
      | (some err, s3) => (some err, s3)
      | (none, s3) =>
        match s3.call (Event.CreateKeyPair s3.d.KeyPairName publicKey)
            (c.CreateKeyPair s3.d s3.d.KeyPairName publicKey) with
        | (some err, s4) => (some err, s4)
        | (none, s4) => (none, s4)

/-- Embeds `Driver.createSSHKey`. -/
def createSSHKey (c : Env σ) (s : St σ) : Option GoError × St σ :=
  createSSHKey.body c
    (St.log { d := { s.d with KeyPairName := sanitizeKeyPairName s.d.KeyPairName },
              w := s.w, trace := s.trace } "Creating Key Pair...")

/-! ## Instance creation and activation -/

/-- Embeds `Driver.createMachine`. -/
def createMachine (c : Env σ) (s : St σ) : Option GoError × St σ :=
  match initCompute c (s.log "Creating OpenStack instance...") with
  | (some err, s1) => (some err, s1)
  | (none, s1) =>
    match s1.call Event.CreateInstance (c.CreateInstance s1.d) with
    | (.error err, s2) => (some err, s2)
    | (.ok instanceID, s2) =>
      (none, { d := { s2.d with MachineId := instanceID }, w := s2.w, trace := s2.trace })

/-- Embeds `Driver.waitForInstanceActive`. -/
def waitForInstanceActive (c : Env σ) (s : St σ) : Option GoError × St σ :=
  match (s.log "Waiting for the OpenStack instance to be ACTIVE...").call
      (Event.WaitForInstanceStatus "ACTIVE") (c.WaitForInstanceStatus s.d "ACTIVE") with
  | (some err, s1) => (some err, s1)
  | (none, s1) => (none, s1)

/-! ## Floating IP -/

/-- The search loop of `Driver.assignFloatingIP`: the entry at which the loop
breaks, `none` when it runs to the end (`floatingIP` stays `nil`). -/
def assignFloatingIP.search : List FloatingIP → Option FloatingIP
  | [] => none
  | ip :: rest => if ip.PortId = "" then some ip else assignFloatingIP.search rest

/-- Embeds `Driver.assignFloatingIP`. -/
def assignFloatingIP (c : Env σ) (s : St σ) : Option GoError × St σ :=
  match (if s.d.ComputeNetwork = true then initCompute c s else initNetwork c s) with
  | (some err, s1) => (some err, s1)
  | (none, s1) =>
    match s1.call Event.GetFloatingIPs (c.GetFloatingIPs s1.d) with
    | (.error err, s2) => (some err, s2)
    | (.ok ips, s2) =>
      match (match assignFloatingIP.search ips with
          | some ip =>
            (ip, ((s2.log "Looking for an available floating IP").log
              "Available floating IP found").log "Assigning floating IP to the instance")
          | none =>
            (({ } : FloatingIP), (s2.log "Looking for an available floating IP").log
              "No available floating IP found. Allocating a new one...")) with
      | (floatingIP, s3) =>
        match s3.call (Event.AssignFloatingIP floatingIP) (c.AssignFloatingIP s3.d floatingIP) with
        | ((some err, _), s4) => (some err, s4)
        | ((none, floatingIP1), s4) =>
          (none, { d := { s4.d with IPAddress := floatingIP1.Ip }, w := s4.w, trace := s4.trace })

/-! ## IP location -/

/-- The inner loop of `Driver.GetIP` over one address list: the first
address of the wanted type and version. -/
def GetIP.search (addressType : AddressType) (version : Int) : List IpAddress → Option IpAddress
  | [] => none
  | a :: rest =>
    if a.AddressType = addressType ∧ a.Version = version then some a
    else GetIP.search addressType version rest

/-- The retry loop of `Driver.GetIP`; the first argument is the number of
iterations left, `200 - retryCount`. -/
def GetIP.retry (c : Env σ) (addressType : AddressType) : Nat → St σ → Except GoError String × St σ
  | 0, s => (.error (Errorf "No IP found for the machine"), s)
  | n + 1, s =>
    match s.call Event.GetInstanceIPAddresses (c.GetInstanceIPAddresses s.d) with
    | (.error err, s1) => (.error err, s1)
    | (.ok addresses, s1) =>
      match GetIP.search addressType s1.d.IpVersion addresses with
      | some a => (.ok a.Address, s1)
      | none => GetIP.retry c addressType n (s1.emit (Event.Sleep 2))

/-- The address type `Driver.GetIP` looks for. -/
def GetIP.addressType (d : Driver) : AddressType :=
  if d.FloatingIpPool ≠ "" then AddressType.Floating else AddressType.Fixed

/-- Embeds `Driver.GetIP`. -/
def GetIP (c : Env σ) (s : St σ) : Except GoError String × St σ :=
  if s.d.IPAddress ≠ "" then
    (.ok s.d.IPAddress, s)
  else
    match initCompute c (s.log "Looking for the IP address...") with
    | (some err, s1) => (.error err, s1)
    | (none, s1) => GetIP.retry c (GetIP.addressType s1.d) 200 s1

/-- Embeds `Driver.lookForIPAddress`. -/
def lookForIPAddress (c : Env σ) (s : St σ) : Option GoError × St σ :=
  match GetIP c s with
  | (.error err, s1) => (some err, s1)
  | (.ok ip, s1) =>
    (none, St.log { d := { s1.d with IPAddress := ip }, w := s1.w, trace := s1.trace }
      "IP address found")

/-! ## Create -/

/-- The key pair step of `Driver.Create`: `loadSSHKey` when a key pair name
is configured, otherwise `createSSHKey` under the generated name
`fmt.Sprintf("%s-%s", d.MachineName, mcnutils.GenerateRandomID())`. -/
def Create.keyPair (c : Env σ) (s : St σ) : Option GoError × St σ :=
  if s.d.KeyPairName ≠ "" then
    loadSSHKey c s
  else
    match s.call Event.GenerateRandomID c.GenerateRandomID with
    | (id, s1) =>
      createSSHKey c
        { d := { s1.d with KeyPairName := s1.d.MachineName ++ "-" ++ id }, w := s1.w, trace := s1.trace }

/-- The steps of `Driver.Create` after a successful `waitForInstanceActive`. -/
def Create.afterActive (c : Env σ) (s : St σ) : Option GoError × St σ :=
  match (if s.d.FloatingIpPool ≠ "" then assignFloatingIP c s else (none, s)) with
  | (some err, s1) => failedToCreate c err s1
  | (none, s1) =>
    match lookForIPAddress c s1 with
    | (some err, s2) => failedToCreate c err s2
    | (none, s2) => (none, s2)

/-- Embeds `Driver.Create`. -/
def Create (c : Env σ) (s : St σ) : Option GoError × St σ :=
  match resolveIds c s with
  | (some err, s1) => (some err, s1)
  | (none, s1) =>
    match Create.keyPair c s1 with
    | (some err, s2) => (some err, s2)
    | (none, s2) =>
      match createMachine c s2 with
      | (some err, s3) => (some err, s3)
      | (none, s3) =>
        match waitForInstanceActive c s3 with
        | (some err, s4) => failedToCreate c err s4
        | (none, s4) => Create.afterActive c s4

/-! ## State and URL -/

/-- Modelled from the spec: the machine states of `libmachine/state`, declared
outside the driver: the six states `GetState` maps a status to, and `None`
for an unknown one. -/
inductive State where
  | None
  | Running
  | Paused
  | Saved
  | Stopped
  | Starting
  | Error
  deriving DecidableEq, Repr

/-- The `switch` of `Driver.GetState` over the status string, with
`state.None` after it. -/
def GetState.switch (s : String) : State :=
  match s with
  | "ACTIVE" => State.Running
  | "PAUSED" => State.Paused
  | "SUSPENDED" => State.Saved
  | "SHUTOFF" => State.Stopped
  | "BUILDING" => State.Starting
  | "ERROR" => State.Error
  | _ => State.None

/-- Embeds `Driver.GetState`; the result is the pair of the state and the
error. -/
def GetState (c : Env σ) (s : St σ) : (State × Option GoError) × St σ :=
  match initCompute c (s.log "Get status for OpenStack instance...") with
  | (some err, s1) => ((State.None, some err), s1)
  | (none, s1) =>
    match s1.call Event.GetInstanceState (c.GetInstanceState s1.d) with
    | (.error err, s2) => ((State.None, some err), s2)
    | (.ok status, s2) =>
      ((GetState.switch status, none), s2.log "State for OpenStack instance")

/-- Modelled from the spec: the error of `drivers.MustBeRunning` for a host
that is not running; the spec fixes no message. -/
def ErrHostIsNotRunning : GoError :=
  GoError.errorString "Host is not running"

/-- Modelled from the spec: `drivers.MustBeRunning` of `libmachine/drivers`,
which is not among the sources.  It asks the driver for its state and fails
when the state cannot be obtained or is not `Running`. -/
def MustBeRunning (c : Env σ) (s : St σ) : Option GoError × St σ :=
  match GetState c s with
  | ((_, some err), s1) => (some err, s1)
  | ((st, none), s1) =>
    if st ≠ State.Running then (some ErrHostIsNotRunning, s1) else (none, s1)

/-- The library function `net.JoinHostPort`: `host:port`, and `[host]:port`
when the host contains a colon, as a literal IPv6 address does. -/
def JoinHostPort (host port : String) : String :=
  if ':' ∈ host.data then "[" ++ host ++ "]:" ++ port else host ++ ":" ++ port

/-- Embeds `Driver.GetURL`; the result is the pair of the URL and the error. -/
def GetURL (c : Env σ) (s : St σ) : (String × Option GoError) × St σ :=
  match MustBeRunning c s with
  | (some err, s1) => (("", some err), s1)
  | (none, s1) =>
    match GetIP c s1 with
    | (.error err, s2) => (("", some err), s2)
    | (.ok ip, s2) =>
      if ip = "" then (("", none), s2)
      else (("tcp://" ++ JoinHostPort ip "2376", none), s2)

/-! ## Reading a trace -/

/-- The events a method issued: the part of the trace after its call that
was not there before. -/
def newEvents (before after : St σ) : List Event :=
  after.trace.drop before.trace.length

/-- The marker of one `Remove` attempt: the `log.Info` line at its entry. -/
def removeAttempt : Event :=
  Event.log "Deleting OpenStack instance..."

/-- Calls of the client's `DeleteKeyPair`, whatever the name. -/
def Event.isDeleteKeyPair : Event → Bool
  | .DeleteKeyPair _ => true
  | _ => false

/-- Session events: authentication and session initialisation. -/
def Event.isSession : Event → Bool
  | .Authenticate => true
  | .InitComputeClient => true
  | .InitNetworkClient => true
  | _ => false

/-- Calls of the client's `AssignFloatingIP`, whatever the record. -/
def Event.isAssignFloatingIP : Event → Bool
  | .AssignFloatingIP _ => true
  | _ => false

/-- The collaborator state after `n` successive address queries for the
driver record `d`. -/
def pollWorld (c : Env σ) (d : Driver) : Nat → σ → σ
  | 0, w => w
  | n + 1, w => pollWorld c d n (c.GetInstanceIPAddresses d w).2

/-- The answers of the client to `n` successive address queries for the
driver record `d`, in order. -/
def pollAnswers (c : Env σ) (d : Driver) : Nat → σ → List (Except GoError (List IpAddress))
  | 0, _ => []
  | n + 1, w =>
    (c.GetInstanceIPAddresses d w).1 :: pollAnswers c d n (c.GetInstanceIPAddresses d w).2

/-- The state `s1` comes after `s` by events that all satisfy `p`. -/
def Ext (p : Event → Bool) (s s1 : St σ) : Prop :=
  ∃ l, s1.trace = s.trace ++ l ∧ ∀ e ∈ l, p e = true

/-- The events of the steps of `Create` before the instance is created
(`resolveIds` and the key pair step): session events, name lookups, key pair
and file operations, and the log lines of these steps. -/
def Event.isSetup : Event → Bool
  | .Authenticate => true
  | .InitComputeClient => true
  | .InitNetworkClient => true
  | .GetNetworkID => true
  | .GetFlavorID => true
  | .GetImageID => true
  | .GetFloatingIPPoolID => true
  | .GetPublicKey _ => true
  | .CreateKeyPair _ _ => true
  | .ReadFile _ => true
  | .WriteFile _ _ _ => true
  | .GenerateSSHKey _ => true
  | .GenerateRandomID => true
  | .log msg =>
    ["Found network id using its name", "Found flavor id using its name",
     "Found image id using its name", "Found floating IP pool id using its name",
     "Loading Key Pair", "Loading Private Key from", "Creating Key Pair..."].contains msg
  | _ => false

/-- The events of the steps of `Create` from the creation of the instance on
(`createMachine`, `waitForInstanceActive`, `assignFloatingIP`,
`lookForIPAddress`): session events, the calls of these steps and their log
lines. -/
def Event.isLaunch : Event → Bool
  | .Authenticate => true
  | .InitComputeClient => true
  | .InitNetworkClient => true
  | .CreateInstance => true
  | .WaitForInstanceStatus _ => true
  | .GetFloatingIPs => true
  | .AssignFloatingIP _ => true
  | .GetInstanceIPAddresses => true
  | .Sleep _ => true
  | .log msg =>
    ["Creating OpenStack instance...", "Waiting for the OpenStack instance to be ACTIVE...",
     "Looking for an available floating IP", "Available floating IP found",
     "No available floating IP found. Allocating a new one...",
     "Assigning floating IP to the instance", "Looking for the IP address...",
     "IP address found"].contains msg
  | _ => false

/-- The events of `Remove` after its entry log lines: session events, the
two deletions and the log lines on the way. -/
def Event.isRemoval : Event → Bool
  | .Authenticate => true
  | .InitComputeClient => true
  | .InitNetworkClient => true
  | .DeleteInstance => true
  | .DeleteKeyPair _ => true
  | .log msg =>
    ["Remote instance does not exist, proceeding with removing local reference",
     "deleting key pair..."].contains msg
  | _ => false

/-- Every call of the client's `CreateKeyPair` among the events is for the
key pair name `name`. -/
def Event.keyPairNamed (name : String) : Event → Bool
  | .CreateKeyPair n _ => decide (n = name)
  | _ => true

/-! ## Test doubles -/

/-- A test double of the collaborators over a query counter: every call
succeeds; the address list is empty for the first two queries and holds a
fixed and a floating address from the third query on; of the three floating
IPs listed, the first is attached; a floating IP without address gets one on
assignment. -/
def stubEnv : Env Nat where
  Authenticate := fun _ w => (none, w)
  InitComputeClient := fun _ w => (none, w)
  InitNetworkClient := fun _ w => (none, w)
  GetNetworkID := fun _ w => (.ok "net-1", w)
  GetFlavorID := fun _ w => (.ok "flavor-1", w)
  GetImageID := fun _ w => (.ok "image-1", w)
  GetFloatingIPPoolID := fun _ w => (.ok "pool-1", w)
  CreateInstance := fun _ w => (.ok "instance-1", w)
  DeleteInstance := fun _ w => (none, w)
  WaitForInstanceStatus := fun _ _ w => (none, w)
  GetInstanceIPAddresses := fun _ w =>
    (if w < 2 then .ok []
      else .ok [{ Address := "fd00::5", AddressType := .Fixed, Version := 6 },
                { Address := "10.0.0.5", AddressType := .Fixed, Version := 4 },
                { Address := "203.0.113.5", AddressType := .Floating, Version := 4 }], w + 1)
  GetInstanceState := fun _ w => (.ok "ACTIVE", w)
  GetFloatingIPs := fun _ w =>
    (.ok [{ Ip := "203.0.113.7", PortId := "port-1" }, { Ip := "203.0.113.8", PortId := "" },
          { Ip := "203.0.113.9", PortId := "" }], w)
  AssignFloatingIP := fun _ f w =>
    ((none, if f.Ip = "" then { Ip := "203.0.113.50", PortId := f.PortId } else f), w)
  GetPublicKey := fun _ w => (.ok "ssh-rsa AAAA", w)
  CreateKeyPair := fun _ _ _ w => (none, w)
  DeleteKeyPair := fun _ _ w => (none, w)
  ReadFile := fun _ w => (.ok "key material", w)
  WriteFile := fun _ _ _ w => (none, w)
  GenerateSSHKey := fun _ w => (none, w)
  GenerateRandomID := fun w => ("0123abcd", w)
  GetSSHKeyPath := fun d => "/store/machines/" ++ d.MachineName ++ "/id_rsa"
  AuthOptions := fun _ => .ok ()

/-- The state before the first call: driver record `d`, counter zero, empty
trace. -/
def St.start (d : Driver) : St Nat :=
  { d := d, w := 0, trace := [] }

/-- A provider on which the instance is gone: the deletion is answered with
status 404, which the client library reports as an `ErrDefault404`. -/
def notFoundEnv : Env Nat :=
  { stubEnv with
    DeleteInstance := fun _ w => (some (GoError.ErrDefault404 "Resource not found"), w) }

/-- A driver record of a created machine with a generated key pair. -/
def createdDriver : Driver :=
  { MachineName := "host1", MachineId := "instance-1", FlavorId := "flavor-1",
    ImageId := "image-1", KeyPairName := "host1-0123abcd", IpVersion := 4 }

/-- A provider whose address list stays empty. -/
def silentEnv : Env Nat :=
  { stubEnv with GetInstanceIPAddresses := fun _ w => (.ok [], w + 1) }

/-- A valid configuration: flavor and image by name, generated key pair. -/
def validConfig : Driver :=
  { MachineName := "host1", FlavorName := "m1.small", ImageName := "ubuntu",
    EndpointType := "publicURL", IpVersion := 4 }

/-- A configuration naming the flavor both by name and by id. -/
def doubleFlavorConfig : Driver :=
  { MachineName := "host1", FlavorName := "m1.small", FlavorId := "42", ImageName := "ubuntu",
    IpVersion := 4 }

/-- A provider that knows no flavor of the supplied name. -/
def unknownFlavorEnv : Env Nat :=
  { stubEnv with GetFlavorID := fun _ w => (.ok "", w) }

/-- A provider on which the instance never becomes active. -/
def stuckEnv : Env Nat :=
  { stubEnv with
    WaitForInstanceStatus := fun _ _ w =>
      (some (GoError.errorString "timeout waiting for ACTIVE"), w) }

/-- A provider on which the instance never becomes active and cannot be
deleted either. -/
def brokenEnv : Env Nat :=
  { stuckEnv with
    DeleteInstance := fun _ w => (some (GoError.errorString "delete refused"), w) }

/-- A host on which the key pair cannot be generated. -/
def keyFailEnv : Env Nat :=
  { stubEnv with GenerateSSHKey := fun _ w => (some (GoError.errorString "cannot write key"), w) }

/-- A provider that refuses to create the instance. -/
def quotaEnv : Env Nat :=
  { stubEnv with CreateInstance := fun _ w => (.error (GoError.errorString "quota exceeded"), w) }

/-- A provider that reports the status in lower case. -/
def lowerCaseEnv : Env Nat :=
  { stubEnv with GetInstanceState := fun _ w => (.ok "active", w) }

/-- A provider whose instance is shut off. -/
def shutOffEnv : Env Nat :=
  { stubEnv with GetInstanceState := fun _ w => (.ok "SHUTOFF", w) }

/-- A provider that cannot be asked for the status. -/
def noStatusEnv : Env Nat :=
  { stubEnv with
    GetInstanceState := fun _ w => (.error (GoError.errorString "status unavailable"), w) }

/-- A provider that lists one fixed IPv4 address record with an empty
address. -/
def blankAddressEnv : Env Nat :=
  { stubEnv with
    GetInstanceIPAddresses := fun _ w =>
      (.ok [{ Address := "", AddressType := .Fixed, Version := 4 }], w + 1) }

/-- A configuration with dots in the machine name, generated key pair. -/
def dottedConfig : Driver :=
  { MachineName := "host.example.1", FlavorId := "flavor-1", ImageId := "image-1",
    IpVersion := 4 }

/-! ## Basic facts about the state helpers -/

@[simp] theorem St.emit_d (s : St σ) (e : Event) : (s.emit e).d = s.d := rfl

@[simp] theorem St.emit_w (s : St σ) (e : Event) : (s.emit e).w = s.w := rfl

@[simp] theorem St.emit_trace (s : St σ) (e : Event) : (s.emit e).trace = s.trace ++ [e] := rfl

@[simp] theorem St.log_d (s : St σ) (m : String) : (s.log m).d = s.d := rfl

@[simp] theorem St.log_w (s : St σ) (m : String) : (s.log m).w = s.w := rfl

@[simp] theorem St.log_trace (s : St σ) (m : String) :
    (s.log m).trace = s.trace ++ [Event.log m] := rfl

@[simp] theorem St.call_fst (s : St σ) (e : Event) (f : σ → α × σ) :
    (s.call e f).1 = (f s.w).1 := rfl

@[simp] theorem St.call_d (s : St σ) (e : Event) (f : σ → α × σ) :
    (s.call e f).2.d = s.d := rfl

@[simp] theorem St.call_w (s : St σ) (e : Event) (f : σ → α × σ) :
    (s.call e f).2.w = (f s.w).2 := rfl

@[simp] theorem St.call_trace (s : St σ) (e : Event) (f : σ → α × σ) :
    (s.call e f).2.trace = s.trace ++ [e] := rfl

/-- A call that answered `r` and left the state `s1`. -/
theorem St.call_eq {s s1 : St σ} {e : Event} {f : σ → α × σ} {r : α}
    (h : s.call e f = (r, s1)) :
    (f s.w).1 = r ∧ s1.d = s.d ∧ s1.w = (f s.w).2 ∧ s1.trace = s.trace ++ [e] := by
  unfold St.call at h
  cases h
  exact ⟨rfl, rfl, rfl, rfl⟩

/-- The new events of a state whose trace extends the old one by `l`. -/
theorem newEvents_append (s s1 : St σ) (l : List Event) (h : s1.trace = s.trace ++ l) :
    newEvents s s1 = l := by
  unfold newEvents
  rw [h]
  exact List.drop_left _ _

/-! ## Configuration check: theorems -/

/-- C8: when the authentication options parse, `checkConfig` returns no error
exactly when one of flavor name / id is set, one of image name / id is set,
network name and id are not both set, the endpoint type is empty or one of
the three fixed values, and key pair name and private key file are both empty
or both set; and a configuration with an invalid endpoint type is always
rejected. -/
theorem checkConfig_accepts_iff (c : Env σ) (s : St σ) :
    (parseAuthConfig c s.d = .ok () →
      ((checkConfig c s).1 = none ↔
        ((s.d.FlavorName ≠ "" ∧ s.d.FlavorId = "") ∨ (s.d.FlavorName = "" ∧ s.d.FlavorId ≠ "")) ∧
        ((s.d.ImageName ≠ "" ∧ s.d.ImageId = "") ∨ (s.d.ImageName = "" ∧ s.d.ImageId ≠ "")) ∧
        ¬ (s.d.NetworkName ≠ "" ∧ s.d.NetworkId ≠ "") ∧
        (s.d.EndpointType = "" ∨ s.d.EndpointType = "publicURL" ∨
          s.d.EndpointType = "adminURL" ∨ s.d.EndpointType = "internalURL") ∧
        ((s.d.KeyPairName = "" ∧ s.d.PrivateKeyFile = "") ∨
          (s.d.KeyPairName ≠ "" ∧ s.d.PrivateKeyFile ≠ "")))) ∧
    ((s.d.EndpointType ≠ "" ∧ s.d.EndpointType ≠ "publicURL" ∧
        s.d.EndpointType ≠ "adminURL" ∧ s.d.EndpointType ≠ "internalURL") →
      (checkConfig c s).1 ≠ none) := by
  constructor
  · intro hparse
    unfold checkConfig
    rw [hparse]
    simp only [ne_eq]
    split_ifs with h1 h2 h3 h4 h5 h6 h7
    all_goals simp only [reduceCtorEq, false_iff, true_iff]
    · rintro ⟨hF, -⟩
      rcases hF with ⟨a, -⟩ | ⟨-, b⟩
      · exact a h1.1
      · exact b h1.2
    · rintro ⟨hF, -⟩
      rcases hF with ⟨-, b⟩ | ⟨a, -⟩
      · exact h2.2 b
      · exact h2.1 a
    · rintro ⟨-, hI, -⟩
      rcases hI with ⟨a, -⟩ | ⟨-, b⟩
      · exact a h3.1
      · exact b h3.2
    · rintro ⟨-, hI, -⟩
      rcases hI with ⟨-, b⟩ | ⟨a, -⟩
      · exact h4.2 b
      · exact h4.1 a
    · rintro ⟨-, -, hN, -⟩
      exact hN h5
    · rintro ⟨-, -, -, hE, -⟩
      rcases hE with a | a | a | a
      · exact h6.1 a
      · exact h6.2.1 a
      · exact h6.2.2.1 a
      · exact h6.2.2.2 a
    · rintro ⟨-, -, -, -, hK⟩
      rcases h7 with ⟨a, b⟩ | ⟨a, b⟩ <;> rcases hK with ⟨x, y⟩ | ⟨x, y⟩
      · exact a x
      · exact y b
      · exact b y
      · exact x a
    · refine ⟨?_, ?_, h5, ?_, ?_⟩
      · by_cases a : s.d.FlavorName = "" <;> by_cases b : s.d.FlavorId = ""
        · exact absurd ⟨a, b⟩ h1
        · exact Or.inr ⟨a, b⟩
        · exact Or.inl ⟨a, b⟩
        · exact absurd ⟨a, b⟩ h2
      · by_cases a : s.d.ImageName = "" <;> by_cases b : s.d.ImageId = ""
        · exact absurd ⟨a, b⟩ h3
        · exact Or.inr ⟨a, b⟩
        · exact Or.inl ⟨a, b⟩
        · exact absurd ⟨a, b⟩ h4
      · by_contra hne
        exact h6 ⟨fun a => hne (Or.inl a), fun a => hne (Or.inr (Or.inl a)),
          fun a => hne (Or.inr (Or.inr (Or.inl a))), fun a => hne (Or.inr (Or.inr (Or.inr a)))⟩
      · by_cases a : s.d.KeyPairName = "" <;> by_cases b : s.d.PrivateKeyFile = ""
        · exact Or.inl ⟨a, b⟩
        · exact absurd (Or.inr ⟨a, b⟩) h7
        · exact absurd (Or.inl ⟨a, b⟩) h7
        · exact Or.inr ⟨a, b⟩
  · intro hE
    unfold checkConfig
    split
    · exact Option.some_ne_none _
    · split_ifs <;> exact Option.some_ne_none _

/-- C9: a configuration with both flavor name and flavor id set, or both
image name and image id set, is rejected by `checkConfig`, whatever the other
fields and the outcome of parsing the authentication options; the driver
record and the collaborators are left as they were and no collaborator is
called. -/
theorem checkConfig_rejects_name_and_id (c : Env σ) (s : St σ)
    (h : (s.d.FlavorName ≠ "" ∧ s.d.FlavorId ≠ "") ∨ (s.d.ImageName ≠ "" ∧ s.d.ImageId ≠ "")) :
    (checkConfig c s).1 ≠ none ∧ (checkConfig c s).2 = s ∧
      newEvents s (checkConfig c s).2 = [] := by
  have hs : (checkConfig c s).2 = s := by
    unfold checkConfig
    split
    · rfl
    · split_ifs <;> rfl
  refine ⟨?_, hs, ?_⟩
  · unfold checkConfig
    split
    · exact Option.some_ne_none _
    · split_ifs with h1 h2 h3 h4 h5 h6 h7
      all_goals first
        | exact Option.some_ne_none _
        | (rcases h with h | h
           · exact absurd h h2
           · exact absurd h h4)
  · rw [hs]
    exact newEvents_append s s [] (List.append_nil _).symm

/-- C8 (witness): a valid configuration is accepted. -/
theorem checkConfig_accepts_iff_witness :
    parseAuthConfig stubEnv validConfig = .ok () ∧
      (checkConfig stubEnv (St.start validConfig)).1 = none :=
  ⟨rfl, ((checkConfig_accepts_iff stubEnv (St.start validConfig)).1 rfl).2
    ⟨Or.inl ⟨by decide, rfl⟩, Or.inl ⟨by decide, rfl⟩, by decide, Or.inr (Or.inl rfl),
      Or.inl ⟨rfl, rfl⟩⟩⟩

/-- C9 (witness): a configuration with flavor name and flavor id is
rejected. -/
theorem checkConfig_rejects_name_and_id_witness :
    (checkConfig stubEnv (St.start doubleFlavorConfig)).1 ≠ none ∧
      (checkConfig stubEnv (St.start doubleFlavorConfig)).2 = St.start doubleFlavorConfig ∧
      newEvents (St.start doubleFlavorConfig)
        (checkConfig stubEnv (St.start doubleFlavorConfig)).2 = [] :=
  checkConfig_rejects_name_and_id stubEnv (St.start doubleFlavorConfig)
    (Or.inl ⟨by decide, by decide⟩)

/-! ## Sessions: theorems -/

/-- A session event is not a key pair deletion. -/
theorem Event.isSession_not_isDeleteKeyPair (e : Event) (h : e.isSession = true) :
    e.isDeleteKeyPair = false := by
  cases e <;> simp_all [Event.isSession, Event.isDeleteKeyPair]

/-- Method `initCompute` does not write the driver record. -/
theorem initCompute_d (c : Env σ) (s : St σ) : (initCompute c s).2.d = s.d := by
  unfold initCompute
  split
  · next h => rw [← (St.call_eq h).2.1]
  · next h =>
    split
    · next h2 => rw [(St.call_eq h2).2.1, (St.call_eq h).2.1]
    · next h2 => rw [(St.call_eq h2).2.1, (St.call_eq h).2.1]

/-- Method `initCompute` issues session events only. -/
theorem initCompute_trace (c : Env σ) (s : St σ) :
    ∃ l, (initCompute c s).2.trace = s.trace ++ l ∧ ∀ e ∈ l, e.isSession = true := by
  unfold initCompute
  split
  · next h =>
    refine ⟨[Event.Authenticate], (St.call_eq h).2.2.2, ?_⟩
    simp [Event.isSession]
  · next h =>
    split
    · next h2 =>
      refine ⟨[Event.Authenticate, Event.InitComputeClient], ?_, ?_⟩
      · simp [(St.call_eq h2).2.2.2, (St.call_eq h).2.2.2]
      · simp [Event.isSession]
    · next h2 =>
      refine ⟨[Event.Authenticate, Event.InitComputeClient], ?_, ?_⟩
      · simp [(St.call_eq h2).2.2.2, (St.call_eq h).2.2.2]
      · simp [Event.isSession]

/-- Method `initNetwork` does not write the driver record. -/
theorem initNetwork_d (c : Env σ) (s : St σ) : (initNetwork c s).2.d = s.d := by
  unfold initNetwork
  split
  · next h => rw [← (St.call_eq h).2.1]
  · next h =>
    split
    · next h2 => rw [(St.call_eq h2).2.1, (St.call_eq h).2.1]
    · next h2 => rw [(St.call_eq h2).2.1, (St.call_eq h).2.1]

/-- Method `initNetwork` issues session events only. -/
theorem initNetwork_trace (c : Env σ) (s : St σ) :
    ∃ l, (initNetwork c s).2.trace = s.trace ++ l ∧ ∀ e ∈ l, e.isSession = true := by
  unfold initNetwork
  split
  · next h =>
    refine ⟨[Event.Authenticate], (St.call_eq h).2.2.2, ?_⟩
    simp [Event.isSession]
  · next h =>
    split
    · next h2 =>
      refine ⟨[Event.Authenticate, Event.InitNetworkClient], ?_, ?_⟩
      · simp [(St.call_eq h2).2.2.2, (St.call_eq h).2.2.2]
      · simp [Event.isSession]
    · next h2 =>
      refine ⟨[Event.Authenticate, Event.InitNetworkClient], ?_, ?_⟩
      · simp [(St.call_eq h2).2.2.2, (St.call_eq h).2.2.2]
      · simp [Event.isSession]

/-! ## Remove: theorems -/

/-- Method `Remove` when the session cannot be initialised. -/
theorem Remove_init_fail (c : Env σ) (s s1 : St σ) (err : GoError)
    (h : initCompute c (Remove.entry s) = (some err, s1)) :
    Remove c s = (some err, s1) := by
  unfold Remove
  rw [h]

/-- Method `Remove` once the session is initialised. -/
theorem Remove_init_ok (c : Env σ) (s s1 : St σ)
    (h : initCompute c (Remove.entry s) = (none, s1)) :
    Remove c s =
      match Remove.afterDelete (c.DeleteInstance s1.d s1.w).1
          (s1.call Event.DeleteInstance (c.DeleteInstance s1.d)).2 with
      | (some err, s3) => (some err, s3)
      | (none, s3) =>
        if s3.d.ExistingKey = false then
          (s3.log "deleting key pair...").call (Event.DeleteKeyPair s3.d.KeyPairName)
              (c.DeleteKeyPair s3.d s3.d.KeyPairName)
        else (none, s3) := by
  unfold Remove
  rw [h]
  simp only [St.call_fst]
  split
  · rfl
  · next s3 h3 =>
    cases hE : s3.d.ExistingKey
    · simp only [Bool.not_false, if_true]
      split <;> next h4 => rw [← h4]
    · simp

/-- The driver record and the trace at the point where `Remove` has
initialised its session. -/
theorem Remove_entry_facts (c : Env σ) (s s1 : St σ) (r : Option GoError)
    (h : initCompute c (Remove.entry s) = (r, s1)) :
    s1.d = s.d ∧ ∃ l, s1.trace = s.trace ++ (Event.log "deleting instance..." ::
      removeAttempt :: l) ∧ ∀ e ∈ l, e.isSession = true := by
  have hd := initCompute_d c (Remove.entry s)
  obtain ⟨l, hl, hs⟩ := initCompute_trace c (Remove.entry s)
  rw [h] at hd hl
  refine ⟨hd, l, ?_, hs⟩
  rw [hl]
  simp [Remove.entry, removeAttempt]

/-- The branch of `Remove` behind its type assertion: when the session is
initialised and `DeleteInstance` fails with an error of the asserted type
`*gophercloud.ErrUnexpectedResponseCode` whose actual code is 404, `Remove`
logs the warning and goes on to the key pair: with `ExistingKey` set it
returns no error and calls nothing more; otherwise it calls `DeleteKeyPair`
with `KeyPairName` and returns what that call returns. -/
theorem Remove_not_found_proceeds (c : Env σ) (s s1 : St σ) (text : String)
    (hinit : initCompute c (Remove.entry s) = (none, s1))
    (hdel : (c.DeleteInstance s1.d s1.w).1 =
      some (GoError.ErrUnexpectedResponseCode StatusNotFound text)) :
    (s.d.ExistingKey = true →
      Remove c s = (none, (s1.call Event.DeleteInstance (c.DeleteInstance s1.d)).2.log
        "Remote instance does not exist, proceeding with removing local reference")) ∧
    (s.d.ExistingKey = false →
      Remove c s =
        (((s1.call Event.DeleteInstance (c.DeleteInstance s1.d)).2.log
          "Remote instance does not exist, proceeding with removing local reference").log
            "deleting key pair...").call (Event.DeleteKeyPair s.d.KeyPairName)
              (c.DeleteKeyPair s.d s.d.KeyPairName)) := by
  have hd : s1.d = s.d := (Remove_entry_facts c s s1 none hinit).1
  rw [Remove_init_ok c s s1 hinit, hdel]
  simp only [Remove.afterDelete, if_true, St.log_d, St.call_d, hd]
  constructor
  · intro hE
    simp [hE]
  · intro hE
    simp [hE]

/-- Method `Remove` when the deletion is answered with an `ErrDefault404`: the
type assertion does not hold, so `Remove` returns the error right after the
`DeleteInstance` call, with no warning and no key pair cleanup. -/
theorem Remove_default404 (c : Env σ) (s s1 : St σ) (text : String)
    (hinit : initCompute c (Remove.entry s) = (none, s1))
    (hdel : (c.DeleteInstance s1.d s1.w).1 = some (GoError.ErrDefault404 text)) :
    Remove c s = (some (GoError.ErrDefault404 text),
      (s1.call Event.DeleteInstance (c.DeleteInstance s1.d)).2) := by
  rw [Remove_init_ok c s s1 hinit, hdel]
  rfl

/-- C4 (failing input): the session is initialised and the deletion of the
instance is answered with status 404, reported by the client library as an
`ErrDefault404`; the key pair was generated.  `Remove` returns that error:
its trace ends with the `DeleteInstance` call, without the warning about the
missing remote instance and without a `DeleteKeyPair` call. -/
theorem Remove_fails_on_default404 :
    (initCompute notFoundEnv (Remove.entry (St.start createdDriver))).1 = none ∧
    (notFoundEnv.DeleteInstance createdDriver 0).1 =
      some (GoError.ErrDefault404 "Resource not found") ∧
    createdDriver.ExistingKey = false ∧
    (Remove notFoundEnv (St.start createdDriver)).1 =
      some (GoError.ErrDefault404 "Resource not found") ∧
    (Remove notFoundEnv (St.start createdDriver)).2.trace =
      [Event.log "deleting instance...", Event.log "Deleting OpenStack instance...",
       Event.Authenticate, Event.InitComputeClient, Event.DeleteInstance] := by
  refine ⟨rfl, rfl, rfl, rfl, rfl⟩

/-- Session events pass no filter that rejects every session event. -/
theorem filter_session_nil (p : Event → Bool) (hp : ∀ e, e.isSession = true → p e = false)
    (l : List Event) (h : ∀ e ∈ l, e.isSession = true) : l.filter p = [] := by
  rw [List.filter_eq_nil_iff]
  intro e he
  rw [hp e (h e he)]
  exact Bool.false_ne_true

/-- The key pair cleanup of `Remove` by the outcome of the deletion, as the
code tests it: `Remove` calls `DeleteKeyPair` (once, with `KeyPairName`)
exactly when `ExistingKey` is false and the instance deletion succeeded or
failed with an error of the asserted type
`*gophercloud.ErrUnexpectedResponseCode` whose actual code is 404; with
`ExistingKey` set it never calls it; and when the deletion fails with any
other error, an `ErrDefault404` included, `Remove` returns that error and
does not call `DeleteKeyPair`. -/
theorem Remove_key_cleanup (c : Env σ) (s : St σ) :
    ((s.d.ExistingKey = false ∧ (initCompute c (Remove.entry s)).1 = none ∧
        ((c.DeleteInstance (initCompute c (Remove.entry s)).2.d
            (initCompute c (Remove.entry s)).2.w).1 = none ∨
          ∃ text, (c.DeleteInstance (initCompute c (Remove.entry s)).2.d
            (initCompute c (Remove.entry s)).2.w).1 =
              some (GoError.ErrUnexpectedResponseCode StatusNotFound text))) →
      (newEvents s (Remove c s).2).filter Event.isDeleteKeyPair =
        [Event.DeleteKeyPair s.d.KeyPairName]) ∧
    (¬ (s.d.ExistingKey = false ∧ (initCompute c (Remove.entry s)).1 = none ∧
        ((c.DeleteInstance (initCompute c (Remove.entry s)).2.d
            (initCompute c (Remove.entry s)).2.w).1 = none ∨
          ∃ text, (c.DeleteInstance (initCompute c (Remove.entry s)).2.d
            (initCompute c (Remove.entry s)).2.w).1 =
              some (GoError.ErrUnexpectedResponseCode StatusNotFound text))) →
      (newEvents s (Remove c s).2).filter Event.isDeleteKeyPair = []) ∧
    (s.d.ExistingKey = true →
      (newEvents s (Remove c s).2).filter Event.isDeleteKeyPair = []) ∧
    (∀ err, (initCompute c (Remove.entry s)).1 = none →
      (c.DeleteInstance (initCompute c (Remove.entry s)).2.d
        (initCompute c (Remove.entry s)).2.w).1 = some err →
      (∀ text, err ≠ GoError.ErrUnexpectedResponseCode StatusNotFound text) →
      (Remove c s).1 = some err ∧
        (newEvents s (Remove c s).2).filter Event.isDeleteKeyPair = []) := by
  rcases hinit : initCompute c (Remove.entry s) with ⟨r, s1⟩
  obtain ⟨hd, l, hl, hs⟩ := Remove_entry_facts c s s1 r hinit
  have hf := filter_session_nil _ Event.isSession_not_isDeleteKeyPair l hs
  cases r with
  | some e0 =>
    have hnew : (newEvents s (Remove c s).2).filter Event.isDeleteKeyPair = [] := by
      rw [Remove_init_fail c s s1 e0 hinit, newEvents_append s s1 _ hl]
      simp [List.filter_cons, removeAttempt, Event.isDeleteKeyPair, hf]
    refine ⟨?_, fun _ => hnew, fun _ => hnew, ?_⟩
    · rintro ⟨-, h, -⟩
      simp at h
    · intro err h
      simp at h
  | none =>
    have hR := Remove_init_ok c s s1 hinit
    simp only []
    rcases hdel : (c.DeleteInstance s1.d s1.w).1 with _ | err
    · -- the deletion succeeded
      rw [hdel] at hR
      simp only [Remove.afterDelete, St.call_d, hd] at hR
      cases hE : s.d.ExistingKey
      · have hnew : (newEvents s (Remove c s).2).filter Event.isDeleteKeyPair =
            [Event.DeleteKeyPair s.d.KeyPairName] := by
          rw [hR, newEvents_append s _ (Event.log "deleting instance..." :: removeAttempt :: l ++
            [Event.DeleteInstance, Event.log "deleting key pair...",
             Event.DeleteKeyPair s.d.KeyPairName])]
          · simp [List.filter_cons, List.filter_append, removeAttempt, Event.isDeleteKeyPair, hf]
          · simp [hE, hl]
        refine ⟨fun _ => hnew, ?_, ?_, ?_⟩
        · intro hn
          exact absurd ⟨by simp, by simp, Or.inl (by simp)⟩ hn
        · intro h
          simp at h
        · intro err h1 h2
          simp at h2
      · have hnew : (newEvents s (Remove c s).2).filter Event.isDeleteKeyPair = [] := by
          rw [hR, newEvents_append s _ (Event.log "deleting instance..." :: removeAttempt :: l ++
            [Event.DeleteInstance])]
          · simp [List.filter_cons, List.filter_append, removeAttempt, Event.isDeleteKeyPair, hf]
          · simp [hE, hl]
        refine ⟨?_, fun _ => hnew, fun _ => hnew, ?_⟩
        · rintro ⟨h, -⟩
          simp at h
        · intro err h1 h2
          simp at h2
    · -- the deletion failed with `err`
      rw [hdel] at hR
      by_cases h404 : ∃ text, err = GoError.ErrUnexpectedResponseCode StatusNotFound text
      · obtain ⟨text, rfl⟩ := h404
        simp only [Remove.afterDelete, if_true, St.call_d, St.log_d, hd] at hR
        cases hE : s.d.ExistingKey
        · have hnew : (newEvents s (Remove c s).2).filter Event.isDeleteKeyPair =
              [Event.DeleteKeyPair s.d.KeyPairName] := by
            rw [hR, newEvents_append s _ (Event.log "deleting instance..." :: removeAttempt :: l ++
              [Event.DeleteInstance,
               Event.log "Remote instance does not exist, proceeding with removing local reference",
               Event.log "deleting key pair...", Event.DeleteKeyPair s.d.KeyPairName])]
            · simp [List.filter_cons, List.filter_append, removeAttempt, Event.isDeleteKeyPair, hf]
            · simp [hE, hl]
          refine ⟨fun _ => hnew, ?_, ?_, ?_⟩
          · intro hn
            exact absurd ⟨by simp, by simp, Or.inr ⟨text, by simp⟩⟩ hn
          · intro h
            simp at h
          · intro err h1 h2 h3
            simp only [Option.some.injEq] at h2
            exact absurd h2.symm (h3 text)
        · have hnew : (newEvents s (Remove c s).2).filter Event.isDeleteKeyPair = [] := by
            rw [hR, newEvents_append s _ (Event.log "deleting instance..." :: removeAttempt :: l ++
              [Event.DeleteInstance,
               Event.log "Remote instance does not exist, proceeding with removing local reference"])]
            · simp [List.filter_cons, List.filter_append, removeAttempt, Event.isDeleteKeyPair, hf]
            · simp [hE, hl]
          refine ⟨?_, fun _ => hnew, fun _ => hnew, ?_⟩
          · rintro ⟨h, -⟩
            simp at h
          · intro err h1 h2 h3
            simp only [Option.some.injEq] at h2
            exact absurd h2.symm (h3 text)
      · have hA : Remove.afterDelete (some err)
            (s1.call Event.DeleteInstance (c.DeleteInstance s1.d)).2 =
            (some err, (s1.call Event.DeleteInstance (c.DeleteInstance s1.d)).2) := by
          cases err with
          | errorString t => rfl
          | ErrDefault404 t => rfl
          | ErrUnexpectedResponseCode a t =>
            have : a ≠ StatusNotFound := fun ha => h404 ⟨t, by rw [ha]⟩
            simp [Remove.afterDelete, this]
        rw [hA] at hR
        simp only [] at hR
        have hnew : (newEvents s (Remove c s).2).filter Event.isDeleteKeyPair = [] := by
          rw [hR, newEvents_append s _ (Event.log "deleting instance..." :: removeAttempt :: l ++
            [Event.DeleteInstance])]
          · simp [List.filter_cons, List.filter_append, removeAttempt, Event.isDeleteKeyPair, hf]
          · simp [hl]
        refine ⟨?_, fun _ => hnew, fun _ => hnew, ?_⟩
        · rintro ⟨-, -, h | ⟨text, h⟩⟩
          · simp at h
          · simp only [Option.some.injEq] at h
            exact absurd ⟨text, h⟩ h404
        · intro err1 h1 h2 h3
          simp only [Option.some.injEq] at h2
          rw [hR, h2]
          exact ⟨rfl, by rw [← h2, ← hR]; exact hnew⟩

/-- The sibling path: the deletion succeeds and the key pair was generated,
and `Remove` deletes the key pair. -/
theorem Remove_key_cleanup_witness :
    (newEvents (St.start createdDriver)
      (Remove stubEnv (St.start createdDriver)).2).filter Event.isDeleteKeyPair =
      [Event.DeleteKeyPair "host1-0123abcd"] :=
  (Remove_key_cleanup stubEnv (St.start createdDriver)).1 ⟨rfl, rfl, Or.inl rfl⟩

/-- C5 (failing input): `ExistingKey` is false and the deletion of the
instance is reported as not found, by the `ErrDefault404` the client library
returns for status 404.  `Remove` calls no `DeleteKeyPair` and returns the
error, while on the same driver record a successful deletion is followed by
the `DeleteKeyPair` call. -/
theorem Remove_skips_key_cleanup_on_default404 :
    createdDriver.ExistingKey = false ∧
    (initCompute notFoundEnv (Remove.entry (St.start createdDriver))).1 = none ∧
    (notFoundEnv.DeleteInstance createdDriver 0).1 =
      some (GoError.ErrDefault404 "Resource not found") ∧
    (newEvents (St.start createdDriver)
      (Remove notFoundEnv (St.start createdDriver)).2).filter Event.isDeleteKeyPair = [] ∧
    (Remove notFoundEnv (St.start createdDriver)).1 ≠ none ∧
    (newEvents (St.start createdDriver)
      (Remove stubEnv (St.start createdDriver)).2).filter Event.isDeleteKeyPair =
      [Event.DeleteKeyPair "host1-0123abcd"] := by
  refine ⟨rfl, rfl, rfl, rfl, ?_, rfl⟩
  decide

/-! ## Floating IP: theorems -/

/-- A session event is not a floating IP assignment. -/
theorem Event.isSession_not_isAssignFloatingIP (e : Event) (h : e.isSession = true) :
    e.isAssignFloatingIP = false := by
  cases e <;> simp_all [Event.isSession, Event.isAssignFloatingIP]

/-- The search loop stops at the first entry with an empty `PortId`. -/
theorem assignFloatingIP_search_first (ahead rest : List FloatingIP) (ip : FloatingIP)
    (hahead : ∀ x ∈ ahead, x.PortId ≠ "") (hip : ip.PortId = "") :
    assignFloatingIP.search (ahead ++ ip :: rest) = some ip := by
  induction ahead with
  | nil => simp [assignFloatingIP.search, hip]
  | cons x xs ih =>
    have hx : x.PortId ≠ "" := hahead x (List.mem_cons_self _ _)
    have hxs : ∀ y ∈ xs, y.PortId ≠ "" := fun y hy => hahead y (List.mem_cons_of_mem _ hy)
    simp [assignFloatingIP.search, hx, ih hxs]

/-- The search loop runs to the end when every entry is attached. -/
theorem assignFloatingIP_search_all_attached (ips : List FloatingIP)
    (h : ∀ x ∈ ips, x.PortId ≠ "") : assignFloatingIP.search ips = none := by
  induction ips with
  | nil => rfl
  | cons x xs ih =>
    have hx : x.PortId ≠ "" := h x (List.mem_cons_self _ _)
    have hxs : ∀ y ∈ xs, y.PortId ≠ "" := fun y hy => h y (List.mem_cons_of_mem _ hy)
    simp [assignFloatingIP.search, hx, ih hxs]

/-- The session step of `assignFloatingIP` leaves the driver record alone and
issues session events only. -/
theorem assignFloatingIP_session (c : Env σ) (s s1 : St σ) (r : Option GoError)
    (h : (if s.d.ComputeNetwork = true then initCompute c s else initNetwork c s) = (r, s1)) :
    s1.d = s.d ∧ ∃ l, s1.trace = s.trace ++ l ∧ ∀ e ∈ l, e.isSession = true := by
  split at h
  · have hd := initCompute_d c s
    have ht := initCompute_trace c s
    rw [h] at hd ht
    exact ⟨hd, ht⟩
  · have hd := initNetwork_d c s
    have ht := initNetwork_trace c s
    rw [h] at hd ht
    exact ⟨hd, ht⟩

/-- Method `assignFloatingIP` once the session is initialised and the floating IPs
are listed, for the record `f` that the search yields. -/
theorem assignFloatingIP_eq (c : Env σ) (s s1 : St σ) (ips : List FloatingIP)
    (hinit : (if s.d.ComputeNetwork = true then initCompute c s else initNetwork c s)
      = (none, s1))
    (hips : (c.GetFloatingIPs s1.d s1.w).1 = .ok ips) (f : FloatingIP)
    (hf : (assignFloatingIP.search ips).getD { } = f) :
    ∃ l, (∀ e ∈ l, e.isAssignFloatingIP = false) ∧
      (assignFloatingIP c s).2.trace = s.trace ++ (l ++ [Event.AssignFloatingIP f]) ∧
      (assignFloatingIP c s).1 =
        (c.AssignFloatingIP s.d f (c.GetFloatingIPs s1.d s1.w).2).1.1 ∧
      ((c.AssignFloatingIP s.d f (c.GetFloatingIPs s1.d s1.w).2).1.1 = none →
        (assignFloatingIP c s).2.d =
          { s.d with IPAddress := (c.AssignFloatingIP s.d f (c.GetFloatingIPs s1.d s1.w).2).1.2.Ip }) := by
  obtain ⟨hd, l0, hl0, hs0⟩ := assignFloatingIP_session c s s1 none hinit
  have hcall : s1.call Event.GetFloatingIPs (c.GetFloatingIPs s1.d) =
      (.ok ips, (s1.call Event.GetFloatingIPs (c.GetFloatingIPs s1.d)).2) := by
    rw [← hips]; rfl
  unfold assignFloatingIP
  rw [hinit]
  simp only []
  rw [hcall]
  simp only []
  cases hsearch : assignFloatingIP.search ips with
  | none =>
    rw [hsearch] at hf
    simp only [Option.getD_none] at hf
    subst hf
    refine ⟨l0 ++ [Event.GetFloatingIPs, Event.log "Looking for an available floating IP",
      Event.log "No available floating IP found. Allocating a new one..."], ?_, ?_⟩
    · intro e he
      simp only [List.mem_append, List.mem_cons, List.mem_singleton, List.not_mem_nil,
        or_false] at he
      rcases he with he | rfl | rfl | rfl
      · exact Event.isSession_not_isAssignFloatingIP e (hs0 e he)
      · rfl
      · rfl
      · rfl
    · simp only [St.log_d, St.call_d, St.log_w, St.call_w, hd]
      rcases hassign : (c.AssignFloatingIP s.d { } (c.GetFloatingIPs s.d s1.w).2) with ⟨⟨r, f1⟩, w4⟩
      cases r <;> simp [St.call, hassign, hl0, hd]
  | some ip =>
    rw [hsearch] at hf
    simp only [Option.getD_some] at hf
    subst hf
    refine ⟨l0 ++ [Event.GetFloatingIPs, Event.log "Looking for an available floating IP",
      Event.log "Available floating IP found",
      Event.log "Assigning floating IP to the instance"], ?_, ?_⟩
    · intro e he
      simp only [List.mem_append, List.mem_cons, List.mem_singleton, List.not_mem_nil,
        or_false] at he
      rcases he with he | rfl | rfl | rfl | rfl
      · exact Event.isSession_not_isAssignFloatingIP e (hs0 e he)
      · rfl
      · rfl
      · rfl
      · rfl
    · simp only [St.log_d, St.call_d, St.log_w, St.call_w, hd]
      rcases hassign : (c.AssignFloatingIP s.d ip (c.GetFloatingIPs s.d s1.w).2) with ⟨⟨r, f1⟩, w4⟩
      cases r <;> simp [St.call, hassign, hl0, hd]

/-- C7: once the session is initialised and the client has listed the
floating IPs, `assignFloatingIP` calls `AssignFloatingIP` once, with the first
listed entry whose `PortId` is empty, whatever precedes or follows it, and
with a fresh empty record when no entry has an empty `PortId`; when that call
succeeds, `assignFloatingIP` succeeds and the driver's `IPAddress` is the `Ip`
field of the assigned record as the client left it. -/
theorem assignFloatingIP_first_free (c : Env σ) (s s1 : St σ) (ips : List FloatingIP)
    (hinit : (if s.d.ComputeNetwork = true then initCompute c s else initNetwork c s)
      = (none, s1))
    (hips : (c.GetFloatingIPs s1.d s1.w).1 = .ok ips) :
    (∀ ahead ip rest, ips = ahead ++ ip :: rest → (∀ x ∈ ahead, x.PortId ≠ "") →
      ip.PortId = "" →
      (newEvents s (assignFloatingIP c s).2).filter Event.isAssignFloatingIP =
          [Event.AssignFloatingIP ip] ∧
        ((c.AssignFloatingIP s.d ip (c.GetFloatingIPs s1.d s1.w).2).1.1 = none →
          (assignFloatingIP c s).1 = none ∧
          (assignFloatingIP c s).2.d.IPAddress =
            (c.AssignFloatingIP s.d ip (c.GetFloatingIPs s1.d s1.w).2).1.2.Ip)) ∧
    ((∀ x ∈ ips, x.PortId ≠ "") →
      (newEvents s (assignFloatingIP c s).2).filter Event.isAssignFloatingIP =
          [Event.AssignFloatingIP { Ip := "", PortId := "" }] ∧
        ((c.AssignFloatingIP s.d { Ip := "", PortId := "" }
            (c.GetFloatingIPs s1.d s1.w).2).1.1 = none →
          (assignFloatingIP c s).1 = none ∧
          (assignFloatingIP c s).2.d.IPAddress =
            (c.AssignFloatingIP s.d { Ip := "", PortId := "" }
              (c.GetFloatingIPs s1.d s1.w).2).1.2.Ip)) := by
  have key : ∀ f : FloatingIP, (assignFloatingIP.search ips).getD { } = f →
      (newEvents s (assignFloatingIP c s).2).filter Event.isAssignFloatingIP =
          [Event.AssignFloatingIP f] ∧
        ((c.AssignFloatingIP s.d f (c.GetFloatingIPs s1.d s1.w).2).1.1 = none →
          (assignFloatingIP c s).1 = none ∧
          (assignFloatingIP c s).2.d.IPAddress =
            (c.AssignFloatingIP s.d f (c.GetFloatingIPs s1.d s1.w).2).1.2.Ip) := by
    intro f hf
    obtain ⟨l, hl, htrace, hres, hdrv⟩ := assignFloatingIP_eq c s s1 ips hinit hips f hf
    constructor
    · rw [newEvents_append s _ _ htrace, List.filter_append,
        List.filter_eq_nil_iff.mpr (fun e he => by rw [hl e he]; exact Bool.false_ne_true)]
      rfl
    · intro hok
      refine ⟨by rw [hres, hok], ?_⟩
      rw [hdrv hok]
  constructor
  · intro ahead ip rest hsplit hahead hip
    apply key
    rw [hsplit, assignFloatingIP_search_first ahead rest ip hahead hip]
    rfl
  · intro hall
    apply key
    rw [assignFloatingIP_search_all_attached ips hall]
    rfl

/-- C7 (witness): three floating IPs listed, the first attached; the second
is assigned and its address adopted. -/
theorem assignFloatingIP_first_free_witness :
    (newEvents (St.start { createdDriver with FloatingIpPool := "public" })
        (assignFloatingIP stubEnv
          (St.start { createdDriver with FloatingIpPool := "public" })).2).filter
        Event.isAssignFloatingIP =
      [Event.AssignFloatingIP { Ip := "203.0.113.8", PortId := "" }] ∧
    (assignFloatingIP stubEnv
      (St.start { createdDriver with FloatingIpPool := "public" })).2.d.IPAddress =
        "203.0.113.8" := by
  have h := (assignFloatingIP_first_free stubEnv
    (St.start { createdDriver with FloatingIpPool := "public" })
    (initNetwork stubEnv (St.start { createdDriver with FloatingIpPool := "public" })).2
    [{ Ip := "203.0.113.7", PortId := "port-1" }, { Ip := "203.0.113.8", PortId := "" },
     { Ip := "203.0.113.9", PortId := "" }] rfl rfl).1
    [{ Ip := "203.0.113.7", PortId := "port-1" }] { Ip := "203.0.113.8", PortId := "" }
    [{ Ip := "203.0.113.9", PortId := "" }] rfl (by decide) rfl
  exact ⟨h.1, (h.2 rfl).2⟩

/-! ## IP location: theorems -/

/-- The inner loop of `GetIP` returns the first address of the wanted type
and version. -/
theorem GetIP_search_eq_find (t : AddressType) (v : Int) (l : List IpAddress) :
    GetIP.search t v l = l.find? (fun b => decide (b.AddressType = t ∧ b.Version = v)) := by
  induction l with
  | nil => rfl
  | cons x xs ih =>
    by_cases h : x.AddressType = t ∧ x.Version = v
    · simp [GetIP.search, List.find?, h]
    · simp only [GetIP.search, List.find?, h, if_false, decide_False]
      exact ih

/-- The inner loop of `GetIP` finds nothing in a list without an address of
the wanted type and version. -/
theorem GetIP_search_miss (t : AddressType) (v : Int) (l : List IpAddress)
    (h : ∀ b ∈ l, ¬ (b.AddressType = t ∧ b.Version = v)) : GetIP.search t v l = none := by
  rw [GetIP_search_eq_find, List.find?_eq_none]
  intro b hb
  simpa using h b hb

/-- The number of answers to `n` queries. -/
theorem pollAnswers_length (c : Env σ) (d : Driver) (n : Nat) (w : σ) :
    (pollAnswers c d n w).length = n := by
  induction n generalizing w with
  | zero => rfl
  | succ n ih => simp [pollAnswers, ih]

/-- The answers to `n + 1` queries: those to the first `n`, then the answer
in the state these left. -/
theorem pollAnswers_succ (c : Env σ) (d : Driver) (n : Nat) (w : σ) :
    pollAnswers c d (n + 1) w =
      pollAnswers c d n w ++ [(c.GetInstanceIPAddresses d (pollWorld c d n w)).1] := by
  induction n generalizing w with
  | zero => rfl
  | succ n ih =>
    rw [pollAnswers, ih, pollAnswers, pollWorld]
    rfl

/-- The retry loop passes over answers without a wanted address: one query
for each, and the loop goes on with the remaining iterations. -/
theorem GetIP_retry_misses (c : Env σ) (t : AddressType) (rs : List (List IpAddress)) :
    ∀ (n : Nat) (s : St σ),
      pollAnswers c s.d rs.length s.w = rs.map Except.ok →
      (∀ x ∈ rs, GetIP.search t s.d.IpVersion x = none) →
      ∃ s1, GetIP.retry c t (rs.length + n) s = GetIP.retry c t n s1 ∧ s1.d = s.d ∧
        s1.w = pollWorld c s.d rs.length s.w ∧
        ∃ l, s1.trace = s.trace ++ l ∧ l.count Event.GetInstanceIPAddresses = rs.length := by
  induction rs with
  | nil =>
    intro n s _ _
    exact ⟨s, by simp, rfl, rfl, [], by simp, rfl⟩
  | cons x xs ih =>
    intro n s hans hmiss
    simp only [List.length_cons, pollAnswers, List.map_cons, List.cons.injEq] at hans
    obtain ⟨hx, hxs⟩ := hans
    have hsx : GetIP.search t s.d.IpVersion x = none := hmiss x (List.mem_cons_self _ _)
    obtain ⟨s1, h1, h2, h3, l, h4, h5⟩ := ih n
      ((s.call Event.GetInstanceIPAddresses (c.GetInstanceIPAddresses s.d)).2.emit (Event.Sleep 2))
      (by simpa using hxs)
      (fun y hy => by simpa using hmiss y (List.mem_cons_of_mem _ hy))
    refine ⟨s1, ?_, by simpa using h2, by simpa [pollWorld] using h3,
      Event.GetInstanceIPAddresses :: Event.Sleep 2 :: l, by simpa using h4, ?_⟩
    · have hlen : (x :: xs).length + n = (xs.length + n) + 1 := by
        simp only [List.length_cons]; omega
      rw [hlen, GetIP.retry]
      have hcall : s.call Event.GetInstanceIPAddresses (c.GetInstanceIPAddresses s.d) =
          (Except.ok x, (s.call Event.GetInstanceIPAddresses (c.GetInstanceIPAddresses s.d)).2) := by
        rw [← hx]; rfl
      rw [hcall]
      simp only [St.call_d, hsx]
      exact h1
    · simp [h5]

/-- Session events are no address queries. -/
theorem count_query_session (l : List Event) (h : ∀ e ∈ l, e.isSession = true) :
    l.count Event.GetInstanceIPAddresses = 0 := by
  rw [List.count_eq_zero]
  intro hmem
  have := h _ hmem
  simp [Event.isSession] at this

/-- Method `GetIP` without a cached address, once the session is initialised: the
retry loop with 200 iterations. -/
theorem GetIP_uncached (c : Env σ) (s s1 : St σ) (hcache : s.d.IPAddress = "")
    (hinit : initCompute c (s.log "Looking for the IP address...") = (none, s1)) :
    GetIP c s = GetIP.retry c (GetIP.addressType s.d) 200 s1 ∧ s1.d = s.d ∧
      ∃ l, s1.trace = s.trace ++ l ∧ l.count Event.GetInstanceIPAddresses = 0 := by
  have hd := initCompute_d c (s.log "Looking for the IP address...")
  obtain ⟨l, hl, hs⟩ := initCompute_trace c (s.log "Looking for the IP address...")
  rw [hinit] at hd hl
  simp only [St.log_d] at hd
  refine ⟨?_, hd, Event.log "Looking for the IP address..." :: l, by simpa using hl, ?_⟩
  · unfold GetIP
    rw [hinit]
    simp [hcache, hd]
  · rw [List.count_cons, count_query_session l hs]
    rfl

/-- C6: `GetIP` with no cached address, once the session is initialised, with
the target type `Floating` when a floating IP pool is configured and `Fixed`
otherwise.  For every `k < 200`: when the first `k` address lists hold no
address of the target type and configured version and the next one does,
`GetIP` returns the first such address of that list after `k + 1` queries.
When 200 successive address lists hold no such address, `GetIP` fails with
the no-IP-found error after 200 queries. -/
theorem GetIP_retry_budget (c : Env σ) (s s1 : St σ) (hcache : s.d.IPAddress = "")
    (hinit : initCompute c (s.log "Looking for the IP address...") = (none, s1)) :
    (∀ k, k < 200 → ∀ (rs : List (List IpAddress)) (r : List IpAddress) (a : IpAddress),
      rs.length = k →
      pollAnswers c s.d (k + 1) s1.w = (rs ++ [r]).map Except.ok →
      (∀ x ∈ rs, ∀ b ∈ x,
        ¬ (b.AddressType = (if s.d.FloatingIpPool ≠ "" then AddressType.Floating
            else AddressType.Fixed) ∧ b.Version = s.d.IpVersion)) →
      r.find? (fun b => decide (b.AddressType =
          (if s.d.FloatingIpPool ≠ "" then AddressType.Floating else AddressType.Fixed) ∧
          b.Version = s.d.IpVersion)) = some a →
      (GetIP c s).1 = .ok a.Address ∧
        (newEvents s (GetIP c s).2).count Event.GetInstanceIPAddresses = k + 1) ∧
    (∀ (rs : List (List IpAddress)), rs.length = 200 →
      pollAnswers c s.d 200 s1.w = rs.map Except.ok →
      (∀ x ∈ rs, ∀ b ∈ x,
        ¬ (b.AddressType = (if s.d.FloatingIpPool ≠ "" then AddressType.Floating
            else AddressType.Fixed) ∧ b.Version = s.d.IpVersion)) →
      (GetIP c s).1 = .error (GoError.errorString "No IP found for the machine") ∧
        (newEvents s (GetIP c s).2).count Event.GetInstanceIPAddresses = 200) := by
  obtain ⟨hG, hd, l0, hl0, hc0⟩ := GetIP_uncached c s s1 hcache hinit
  change (∀ k, k < 200 → ∀ (rs : List (List IpAddress)) (r : List IpAddress) (a : IpAddress),
      rs.length = k →
      pollAnswers c s.d (k + 1) s1.w = (rs ++ [r]).map Except.ok →
      (∀ x ∈ rs, ∀ b ∈ x, ¬ (b.AddressType = GetIP.addressType s.d ∧ b.Version = s.d.IpVersion)) →
      r.find? (fun b => decide (b.AddressType = GetIP.addressType s.d ∧
          b.Version = s.d.IpVersion)) = some a → _) ∧
    (∀ (rs : List (List IpAddress)), rs.length = 200 →
      pollAnswers c s.d 200 s1.w = rs.map Except.ok →
      (∀ x ∈ rs, ∀ b ∈ x, ¬ (b.AddressType = GetIP.addressType s.d ∧ b.Version = s.d.IpVersion)) →
      _)
  constructor
  · intro k hk rs r a hlen hans hmiss hfind
    rw [pollAnswers_succ, List.map_append] at hans
    have hsplit := List.append_inj' hans (by simp)
    obtain ⟨hans1, hlast⟩ := hsplit
    simp only [List.map_cons, List.map_nil, List.cons.injEq, and_true] at hlast
    obtain ⟨s2, h1, h2, h3, l, h4, h5⟩ := GetIP_retry_misses c (GetIP.addressType s.d) rs
      (200 - k - 1 + 1) s1 (by rw [hd, hlen]; exact hans1)
      (fun x hx => by rw [hd]; exact GetIP_search_miss _ _ x (hmiss x hx))
    have h200 : rs.length + (200 - k - 1 + 1) = 200 := by omega
    rw [h200] at h1
    have hcall : s2.call Event.GetInstanceIPAddresses (c.GetInstanceIPAddresses s2.d) =
        (Except.ok r, (s2.call Event.GetInstanceIPAddresses (c.GetInstanceIPAddresses s2.d)).2) := by
      rw [← hlast, ← hlen, ← hd, ← h3, ← h2]; rfl
    have hsearch : GetIP.search (GetIP.addressType s.d) s2.d.IpVersion r = some a := by
      rw [GetIP_search_eq_find, h2, hd]; exact hfind
    rw [hG, h1, GetIP.retry, hcall]
    simp only [St.call_d, hsearch]
    refine ⟨trivial, ?_⟩
    rw [newEvents_append s _ (l0 ++ l ++ [Event.GetInstanceIPAddresses])
      (by simp [h4, hl0])]
    simp [List.count_append, hc0, h5, hlen]
  · intro rs hlen hans hmiss
    obtain ⟨s2, h1, h2, h3, l, h4, h5⟩ := GetIP_retry_misses c (GetIP.addressType s.d) rs
      0 s1 (by rw [hd, hlen]; exact hans)
      (fun x hx => by rw [hd]; exact GetIP_search_miss _ _ x (hmiss x hx))
    rw [hlen] at h1
    rw [hG, h1, GetIP.retry]
    refine ⟨rfl, ?_⟩
    rw [newEvents_append s _ (l0 ++ l) (by simp [h4, hl0])]
    simp [List.count_append, hc0, h5, hlen]

set_option maxRecDepth 20000 in
/-- C6 (witness): two empty address lists, then one with a fixed IPv4
address behind an IPv6 one: three queries; and a provider whose address list
stays empty: 200 queries, then the no-IP-found error. -/
theorem GetIP_retry_budget_witness :
    ((GetIP stubEnv (St.start createdDriver)).1 = .ok "10.0.0.5" ∧
      (newEvents (St.start createdDriver)
        (GetIP stubEnv (St.start createdDriver)).2).count Event.GetInstanceIPAddresses = 3) ∧
    ((GetIP silentEnv (St.start createdDriver)).1 =
        .error (GoError.errorString "No IP found for the machine") ∧
      (newEvents (St.start createdDriver)
        (GetIP silentEnv (St.start createdDriver)).2).count Event.GetInstanceIPAddresses = 200) :=
  ⟨(GetIP_retry_budget stubEnv (St.start createdDriver)
      (initCompute stubEnv ((St.start createdDriver).log "Looking for the IP address...")).2
      rfl rfl).1 2 (by decide) [[], []]
      [{ Address := "fd00::5", AddressType := .Fixed, Version := 6 },
       { Address := "10.0.0.5", AddressType := .Fixed, Version := 4 },
       { Address := "203.0.113.5", AddressType := .Floating, Version := 4 }]
      { Address := "10.0.0.5", AddressType := .Fixed, Version := 4 } rfl rfl (by decide) rfl,
   (GetIP_retry_budget silentEnv (St.start createdDriver)
      (initCompute silentEnv ((St.start createdDriver).log "Looking for the IP address...")).2
      rfl rfl).2 (List.replicate 200 []) rfl rfl
      (fun x hx b hb => by rw [List.eq_of_mem_replicate hx] at hb; cases hb)⟩

/-- A call, split into its answer and the state it leaves. -/
theorem St.call_split (s : St σ) (e : Event) (f : σ → α × σ) :
    s.call e f = ((f s.w).1, (s.call e f).2) := rfl

/-! ## Name resolution: theorems -/

/-- The network block writes no field but `NetworkId` and issues session
events, the network lookup and its log line only. -/
theorem resolveIds_network_frame (c : Env σ) (s : St σ) :
    (∃ id, (resolveIds.network c s).2.d = { s.d with NetworkId := id }) ∧
    ∃ l, (resolveIds.network c s).2.trace = s.trace ++ l ∧
      ∀ e ∈ l, e.isSession = true ∨ e = Event.GetNetworkID ∨
        e = Event.log "Found network id using its name" := by
  unfold resolveIds.network
  split_ifs with h
  · rcases hinit : initNetwork c s with ⟨r, s1⟩
    have hd := initNetwork_d c s
    obtain ⟨l, hl, hs⟩ := initNetwork_trace c s
    rw [hinit] at hd hl
    simp only [] at hd hl
    cases r with
    | some err =>
      exact ⟨⟨s.d.NetworkId, hd⟩, l, hl, fun e he => Or.inl (hs e he)⟩
    | none =>
      simp only []
      rw [St.call_split]
      rcases hans : (c.GetNetworkID s1.d s1.w).1 with err | id
      · refine ⟨⟨s.d.NetworkId, ?_⟩, l ++ [Event.GetNetworkID], ?_, ?_⟩
        · simp [hd]
        · simp [hl]
        · intro e he
          simp only [List.mem_append, List.mem_singleton] at he
          rcases he with he | rfl
          · exact Or.inl (hs e he)
          · exact Or.inr (Or.inl rfl)
      · by_cases hid : id = ""
        · refine ⟨⟨s.d.NetworkId, ?_⟩, l ++ [Event.GetNetworkID], ?_, ?_⟩
          · simp [hd, hid]
          · simp [hl, hid]
          · intro e he
            simp only [List.mem_append, List.mem_singleton] at he
            rcases he with he | rfl
            · exact Or.inl (hs e he)
            · exact Or.inr (Or.inl rfl)
        · refine ⟨⟨id, ?_⟩, l ++ [Event.GetNetworkID,
            Event.log "Found network id using its name"], ?_, ?_⟩
          · simp [hd, hid]
          · simp [hl, hid]
          · intro e he
            simp only [List.mem_append, List.mem_cons, List.mem_singleton, List.not_mem_nil,
              or_false] at he
            rcases he with he | rfl | rfl
            · exact Or.inl (hs e he)
            · exact Or.inr (Or.inl rfl)
            · exact Or.inr (Or.inr rfl)
  · exact ⟨⟨s.d.NetworkId, rfl⟩, [], by simp, by simp⟩

/-- The network block when the client knows no network of the supplied
name: the error names it, and nothing is written. -/
theorem resolveIds_network_unknown (c : Env σ) (s s1 : St σ) (hname : s.d.NetworkName ≠ "" ∧ s.d.ComputeNetwork = false)
    (hinit : initNetwork c s = (none, s1)) (hans : (c.GetNetworkID s1.d s1.w).1 = .ok "") :
    (resolveIds.network c s).1 = some (GoError.errorString ("Unable to find network named " ++ s.d.NetworkName)) ∧
      (resolveIds.network c s).2.d = s.d ∧
      ∃ l, (resolveIds.network c s).2.trace = s.trace ++ (l ++ [Event.GetNetworkID]) ∧
        ∀ e ∈ l, e.isSession = true := by
  have hd := initNetwork_d c s
  obtain ⟨l, hl, hs⟩ := initNetwork_trace c s
  rw [hinit] at hd hl
  simp only [] at hd hl
  unfold resolveIds.network
  rw [if_pos hname, hinit]
  simp only []
  rw [St.call_split, hans]
  simp only [if_true, St.call_d, St.call_trace, hd, hl, Errorf, errorUnknownNetworkName, List.append_assoc]
  exact ⟨trivial, trivial, l, rfl, hs⟩

/-- The flavor block writes no field but `FlavorId` and issues session
events, the flavor lookup and its log line only. -/
theorem resolveIds_flavor_frame (c : Env σ) (s : St σ) :
    (∃ id, (resolveIds.flavor c s).2.d = { s.d with FlavorId := id }) ∧
    ∃ l, (resolveIds.flavor c s).2.trace = s.trace ++ l ∧
      ∀ e ∈ l, e.isSession = true ∨ e = Event.GetFlavorID ∨
        e = Event.log "Found flavor id using its name" := by
  unfold resolveIds.flavor
  split_ifs with h
  · rcases hinit : initCompute c s with ⟨r, s1⟩
    have hd := initCompute_d c s
    obtain ⟨l, hl, hs⟩ := initCompute_trace c s
    rw [hinit] at hd hl
    simp only [] at hd hl
    cases r with
    | some err =>
      exact ⟨⟨s.d.FlavorId, hd⟩, l, hl, fun e he => Or.inl (hs e he)⟩
    | none =>
      simp only []
      rw [St.call_split]
      rcases hans : (c.GetFlavorID s1.d s1.w).1 with err | id
      · refine ⟨⟨s.d.FlavorId, ?_⟩, l ++ [Event.GetFlavorID], ?_, ?_⟩
        · simp [hd]
        · simp [hl]
        · intro e he
          simp only [List.mem_append, List.mem_singleton] at he
          rcases he with he | rfl
          · exact Or.inl (hs e he)
          · exact Or.inr (Or.inl rfl)
      · by_cases hid : id = ""
        · refine ⟨⟨s.d.FlavorId, ?_⟩, l ++ [Event.GetFlavorID], ?_, ?_⟩
          · simp [hd, hid]
          · simp [hl, hid]
          · intro e he
            simp only [List.mem_append, List.mem_singleton] at he
            rcases he with he | rfl
            · exact Or.inl (hs e he)
            · exact Or.inr (Or.inl rfl)
        · refine ⟨⟨id, ?_⟩, l ++ [Event.GetFlavorID,
            Event.log "Found flavor id using its name"], ?_, ?_⟩
          · simp [hd, hid]
          · simp [hl, hid]
          · intro e he
            simp only [List.mem_append, List.mem_cons, List.mem_singleton, List.not_mem_nil,
              or_false] at he
            rcases he with he | rfl | rfl
            · exact Or.inl (hs e he)
            · exact Or.inr (Or.inl rfl)
            · exact Or.inr (Or.inr rfl)
  · exact ⟨⟨s.d.FlavorId, rfl⟩, [], by simp, by simp⟩

/-- The flavor block when the client knows no flavor of the supplied
name: the error names it, and nothing is written. -/
theorem resolveIds_flavor_unknown (c : Env σ) (s s1 : St σ) (hname : s.d.FlavorName ≠ "")
    (hinit : initCompute c s = (none, s1)) (hans : (c.GetFlavorID s1.d s1.w).1 = .ok "") :
    (resolveIds.flavor c s).1 = some (GoError.errorString ("Unable to find flavor named " ++ s.d.FlavorName)) ∧
      (resolveIds.flavor c s).2.d = s.d ∧
      ∃ l, (resolveIds.flavor c s).2.trace = s.trace ++ (l ++ [Event.GetFlavorID]) ∧
        ∀ e ∈ l, e.isSession = true := by
  have hd := initCompute_d c s
  obtain ⟨l, hl, hs⟩ := initCompute_trace c s
  rw [hinit] at hd hl
  simp only [] at hd hl
  unfold resolveIds.flavor
  rw [if_pos hname, hinit]
  simp only []
  rw [St.call_split, hans]
  simp only [if_true, St.call_d, St.call_trace, hd, hl, Errorf, errorUnknownFlavorName, List.append_assoc]
  exact ⟨trivial, trivial, l, rfl, hs⟩

/-- The image block writes no field but `ImageId` and issues session
events, the image lookup and its log line only. -/
theorem resolveIds_image_frame (c : Env σ) (s : St σ) :
    (∃ id, (resolveIds.image c s).2.d = { s.d with ImageId := id }) ∧
    ∃ l, (resolveIds.image c s).2.trace = s.trace ++ l ∧
      ∀ e ∈ l, e.isSession = true ∨ e = Event.GetImageID ∨
        e = Event.log "Found image id using its name" := by
  unfold resolveIds.image
  split_ifs with h
  · rcases hinit : initCompute c s with ⟨r, s1⟩
    have hd := initCompute_d c s
    obtain ⟨l, hl, hs⟩ := initCompute_trace c s
    rw [hinit] at hd hl
    simp only [] at hd hl
    cases r with
    | some err =>
      exact ⟨⟨s.d.ImageId, hd⟩, l, hl, fun e he => Or.inl (hs e he)⟩
    | none =>
      simp only []
      rw [St.call_split]
      rcases hans : (c.GetImageID s1.d s1.w).1 with err | id
      · refine ⟨⟨s.d.ImageId, ?_⟩, l ++ [Event.GetImageID], ?_, ?_⟩
        · simp [hd]
        · simp [hl]
        · intro e he
          simp only [List.mem_append, List.mem_singleton] at he
          rcases he with he | rfl
          · exact Or.inl (hs e he)
          · exact Or.inr (Or.inl rfl)
      · by_cases hid : id = ""
        · refine ⟨⟨s.d.ImageId, ?_⟩, l ++ [Event.GetImageID], ?_, ?_⟩
          · simp [hd, hid]
          · simp [hl, hid]
          · intro e he
            simp only [List.mem_append, List.mem_singleton] at he
            rcases he with he | rfl
            · exact Or.inl (hs e he)
            · exact Or.inr (Or.inl rfl)
        · refine ⟨⟨id, ?_⟩, l ++ [Event.GetImageID,
            Event.log "Found image id using its name"], ?_, ?_⟩
          · simp [hd, hid]
          · simp [hl, hid]
          · intro e he
            simp only [List.mem_append, List.mem_cons, List.mem_singleton, List.not_mem_nil,
              or_false] at he
            rcases he with he | rfl | rfl
            · exact Or.inl (hs e he)
            · exact Or.inr (Or.inl rfl)
            · exact Or.inr (Or.inr rfl)
  · exact ⟨⟨s.d.ImageId, rfl⟩, [], by simp, by simp⟩

/-- The image block when the client knows no image of the supplied
name: the error names it, and nothing is written. -/
theorem resolveIds_image_unknown (c : Env σ) (s s1 : St σ) (hname : s.d.ImageName ≠ "")
    (hinit : initCompute c s = (none, s1)) (hans : (c.GetImageID s1.d s1.w).1 = .ok "") :
    (resolveIds.image c s).1 = some (GoError.errorString ("Unable to find image named " ++ s.d.ImageName)) ∧
      (resolveIds.image c s).2.d = s.d ∧
      ∃ l, (resolveIds.image c s).2.trace = s.trace ++ (l ++ [Event.GetImageID]) ∧
        ∀ e ∈ l, e.isSession = true := by
  have hd := initCompute_d c s
  obtain ⟨l, hl, hs⟩ := initCompute_trace c s
  rw [hinit] at hd hl
  simp only [] at hd hl
  unfold resolveIds.image
  rw [if_pos hname, hinit]
  simp only []
  rw [St.call_split, hans]
  simp only [if_true, St.call_d, St.call_trace, hd, hl, Errorf, errorUnknownImageName, List.append_assoc]
  exact ⟨trivial, trivial, l, rfl, hs⟩

/-- The floating IP pool block writes no field but `FloatingIpPoolId` and issues session
events, the pool lookup and its log line only. -/
theorem resolveIds_floatingIpPool_frame (c : Env σ) (s : St σ) :
    (∃ id, (resolveIds.floatingIpPool c s).2.d = { s.d with FloatingIpPoolId := id }) ∧
    ∃ l, (resolveIds.floatingIpPool c s).2.trace = s.trace ++ l ∧
      ∀ e ∈ l, e.isSession = true ∨ e = Event.GetFloatingIPPoolID ∨
        e = Event.log "Found floating IP pool id using its name" := by
  unfold resolveIds.floatingIpPool
  split_ifs with h
  · rcases hinit : initNetwork c s with ⟨r, s1⟩
    have hd := initNetwork_d c s
    obtain ⟨l, hl, hs⟩ := initNetwork_trace c s
    rw [hinit] at hd hl
    simp only [] at hd hl
    cases r with
    | some err =>
      exact ⟨⟨s.d.FloatingIpPoolId, hd⟩, l, hl, fun e he => Or.inl (hs e he)⟩
    | none =>
      simp only []
      rw [St.call_split]
      rcases hans : (c.GetFloatingIPPoolID s1.d s1.w).1 with err | id
      · refine ⟨⟨s.d.FloatingIpPoolId, ?_⟩, l ++ [Event.GetFloatingIPPoolID], ?_, ?_⟩
        · simp [hd]
        · simp [hl]
        · intro e he
          simp only [List.mem_append, List.mem_singleton] at he
          rcases he with he | rfl
          · exact Or.inl (hs e he)
          · exact Or.inr (Or.inl rfl)
      · by_cases hid : id = ""
        · refine ⟨⟨s.d.FloatingIpPoolId, ?_⟩, l ++ [Event.GetFloatingIPPoolID], ?_, ?_⟩
          · simp [hd, hid]
          · simp [hl, hid]
          · intro e he
            simp only [List.mem_append, List.mem_singleton] at he
            rcases he with he | rfl
            · exact Or.inl (hs e he)
            · exact Or.inr (Or.inl rfl)
        · refine ⟨⟨id, ?_⟩, l ++ [Event.GetFloatingIPPoolID,
            Event.log "Found floating IP pool id using its name"], ?_, ?_⟩
          · simp [hd, hid]
          · simp [hl, hid]
          · intro e he
            simp only [List.mem_append, List.mem_cons, List.mem_singleton, List.not_mem_nil,
              or_false] at he
            rcases he with he | rfl | rfl
            · exact Or.inl (hs e he)
            · exact Or.inr (Or.inl rfl)
            · exact Or.inr (Or.inr rfl)
  · exact ⟨⟨s.d.FloatingIpPoolId, rfl⟩, [], by simp, by simp⟩

/-- The floating IP pool block when the client knows no pool of the supplied
name: the error names it, and nothing is written. -/
theorem resolveIds_floatingIpPool_unknown (c : Env σ) (s s1 : St σ) (hname : s.d.FloatingIpPool ≠ "" ∧ s.d.ComputeNetwork = false)
    (hinit : initNetwork c s = (none, s1)) (hans : (c.GetFloatingIPPoolID s1.d s1.w).1 = .ok "") :
    (resolveIds.floatingIpPool c s).1 = some (GoError.errorString ("Unable to find network named " ++ s.d.FloatingIpPool)) ∧
      (resolveIds.floatingIpPool c s).2.d = s.d ∧
      ∃ l, (resolveIds.floatingIpPool c s).2.trace = s.trace ++ (l ++ [Event.GetFloatingIPPoolID]) ∧
        ∀ e ∈ l, e.isSession = true := by
  have hd := initNetwork_d c s
  obtain ⟨l, hl, hs⟩ := initNetwork_trace c s
  rw [hinit] at hd hl
  simp only [] at hd hl
  unfold resolveIds.floatingIpPool
  rw [if_pos hname, hinit]
  simp only []
  rw [St.call_split, hans]
  simp only [if_true, St.call_d, St.call_trace, hd, hl, Errorf, errorUnknownNetworkName, List.append_assoc]
  exact ⟨trivial, trivial, l, rfl, hs⟩

/-- Method `resolveIds` returns at the network block when that block fails. -/
theorem resolveIds_stop_network (c : Env σ) (s : St σ) (e : GoError)
    (h : (resolveIds.network c s).1 = some e) : resolveIds c s = resolveIds.network c s := by
  unfold resolveIds
  rcases hb : resolveIds.network c s with ⟨r, s1⟩
  rw [hb] at h
  simp only [] at h
  subst h
  rfl

/-- Method `resolveIds` returns at the flavor block when that block fails. -/
theorem resolveIds_stop_flavor (c : Env σ) (s s1 : St σ) (e : GoError)
    (h1 : resolveIds.network c s = (none, s1))
    (h : (resolveIds.flavor c s1).1 = some e) : resolveIds c s = resolveIds.flavor c s1 := by
  unfold resolveIds
  rw [h1]
  simp only []
  rcases hb : resolveIds.flavor c s1 with ⟨r, s2⟩
  rw [hb] at h
  simp only [] at h
  subst h
  rfl

/-- Method `resolveIds` returns at the image block when that block fails. -/
theorem resolveIds_stop_image (c : Env σ) (s s1 s2 : St σ) (e : GoError)
    (h1 : resolveIds.network c s = (none, s1)) (h2 : resolveIds.flavor c s1 = (none, s2))
    (h : (resolveIds.image c s2).1 = some e) : resolveIds c s = resolveIds.image c s2 := by
  unfold resolveIds
  rw [h1]
  simp only []
  rw [h2]
  simp only []
  rcases hb : resolveIds.image c s2 with ⟨r, s3⟩
  rw [hb] at h
  simp only [] at h
  subst h
  rfl

/-- Method `resolveIds` ends with the floating IP pool block when the three blocks
before it succeed. -/
theorem resolveIds_reach_pool (c : Env σ) (s s1 s2 s3 : St σ)
    (h1 : resolveIds.network c s = (none, s1)) (h2 : resolveIds.flavor c s1 = (none, s2))
    (h3 : resolveIds.image c s2 = (none, s3)) :
    resolveIds c s = resolveIds.floatingIpPool c s3 := by
  unfold resolveIds
  rw [h1]
  simp only []
  rw [h2]
  simp only []
  rw [h3]

/-- Method `resolveIds` writes no field but the four id fields. -/
theorem resolveIds_frame (c : Env σ) (s : St σ) :
    ∃ n f i p, (resolveIds c s).2.d =
      { s.d with NetworkId := n, FlavorId := f, ImageId := i, FloatingIpPoolId := p } := by
  rcases h1 : resolveIds.network c s with ⟨r1, s1⟩
  obtain ⟨⟨n, hn⟩, -⟩ := resolveIds_network_frame c s
  rw [h1] at hn
  simp only [] at hn
  cases r1 with
  | some e =>
    rw [resolveIds_stop_network c s e (by rw [h1]), h1]
    exact ⟨n, s.d.FlavorId, s.d.ImageId, s.d.FloatingIpPoolId, hn⟩
  | none =>
    rcases h2 : resolveIds.flavor c s1 with ⟨r2, s2⟩
    obtain ⟨⟨f, hf⟩, -⟩ := resolveIds_flavor_frame c s1
    rw [h2] at hf
    simp only [] at hf
    cases r2 with
    | some e =>
      rw [resolveIds_stop_flavor c s s1 e h1 (by rw [h2]), h2]
      exact ⟨n, f, s.d.ImageId, s.d.FloatingIpPoolId, by rw [hf, hn]⟩
    | none =>
      rcases h3 : resolveIds.image c s2 with ⟨r3, s3⟩
      obtain ⟨⟨i, hi⟩, -⟩ := resolveIds_image_frame c s2
      rw [h3] at hi
      simp only [] at hi
      cases r3 with
      | some e =>
        rw [resolveIds_stop_image c s s1 s2 e h1 h2 (by rw [h3]), h3]
        exact ⟨n, f, i, s.d.FloatingIpPoolId, by rw [hi, hf, hn]⟩
      | none =>
        obtain ⟨⟨p, hp⟩, -⟩ := resolveIds_floatingIpPool_frame c s3
        rw [resolveIds_reach_pool c s s1 s2 s3 h1 h2 h3]
        exact ⟨n, f, i, p, by rw [hp, hi, hf, hn]⟩

/-- An event that is no session event and differs from `a` and `b` is not in
a list of session events, `a` and `b`. -/
theorem not_mem_block_events (l : List Event) (x a b : Event) (hx : x.isSession = false)
    (hxa : x ≠ a) (hxb : x ≠ b) (h : ∀ e ∈ l, e.isSession = true ∨ e = a ∨ e = b) : x ∉ l := by
  intro hmem
  rcases h x hmem with h1 | h1 | h1
  · rw [hx] at h1
    exact Bool.false_ne_true h1
  · exact hxa h1
  · exact hxb h1

/-- An event that is no session event is not in a list of session events. -/
theorem not_mem_session_events (l : List Event) (x : Event) (hx : x.isSession = false)
    (h : ∀ e ∈ l, e.isSession = true) : x ∉ l := by
  intro hmem
  have h1 := h x hmem
  rw [hx] at h1
  exact Bool.false_ne_true h1

/-- C10: when the client reports no match (an empty id and no error) for the
supplied network, flavor, image or floating IP pool name, `resolveIds` fails
with an error whose message ends with that name, leaves the id field of that
resource and of the later ones as they were, and makes no later lookup;
network and pool are looked up only outside nova-network mode; and
`resolveIds` never writes a name field. -/
theorem resolveIds_unknown_name (c : Env σ) (s : St σ) :
    ((resolveIds c s).2.d.NetworkName = s.d.NetworkName ∧
      (resolveIds c s).2.d.FlavorName = s.d.FlavorName ∧
      (resolveIds c s).2.d.ImageName = s.d.ImageName ∧
      (resolveIds c s).2.d.FloatingIpPool = s.d.FloatingIpPool) ∧
    (∀ s1, s.d.NetworkName ≠ "" → s.d.ComputeNetwork = false →
      initNetwork c s = (none, s1) → (c.GetNetworkID s1.d s1.w).1 = .ok "" →
      (resolveIds c s).1 =
          some (GoError.errorString ("Unable to find network named " ++ s.d.NetworkName)) ∧
        (resolveIds c s).2.d.NetworkId = s.d.NetworkId ∧
        (resolveIds c s).2.d.FlavorId = s.d.FlavorId ∧
        (resolveIds c s).2.d.ImageId = s.d.ImageId ∧
        (resolveIds c s).2.d.FloatingIpPoolId = s.d.FloatingIpPoolId ∧
        Event.GetFlavorID ∉ newEvents s (resolveIds c s).2 ∧
        Event.GetImageID ∉ newEvents s (resolveIds c s).2 ∧
        Event.GetFloatingIPPoolID ∉ newEvents s (resolveIds c s).2) ∧
    (∀ s1 s2, resolveIds.network c s = (none, s1) → s.d.FlavorName ≠ "" →
      initCompute c s1 = (none, s2) → (c.GetFlavorID s2.d s2.w).1 = .ok "" →
      (resolveIds c s).1 =
          some (GoError.errorString ("Unable to find flavor named " ++ s.d.FlavorName)) ∧
        (resolveIds c s).2.d.FlavorId = s.d.FlavorId ∧
        (resolveIds c s).2.d.ImageId = s.d.ImageId ∧
        (resolveIds c s).2.d.FloatingIpPoolId = s.d.FloatingIpPoolId ∧
        Event.GetImageID ∉ newEvents s (resolveIds c s).2 ∧
        Event.GetFloatingIPPoolID ∉ newEvents s (resolveIds c s).2) ∧
    (∀ s1 s2 s3, resolveIds.network c s = (none, s1) → resolveIds.flavor c s1 = (none, s2) →
      s.d.ImageName ≠ "" →
      initCompute c s2 = (none, s3) → (c.GetImageID s3.d s3.w).1 = .ok "" →
      (resolveIds c s).1 =
          some (GoError.errorString ("Unable to find image named " ++ s.d.ImageName)) ∧
        (resolveIds c s).2.d.ImageId = s.d.ImageId ∧
        (resolveIds c s).2.d.FloatingIpPoolId = s.d.FloatingIpPoolId ∧
        Event.GetFloatingIPPoolID ∉ newEvents s (resolveIds c s).2) ∧
    (∀ s1 s2 s3 s4, resolveIds.network c s = (none, s1) → resolveIds.flavor c s1 = (none, s2) →
      resolveIds.image c s2 = (none, s3) →
      s.d.FloatingIpPool ≠ "" → s.d.ComputeNetwork = false →
      initNetwork c s3 = (none, s4) → (c.GetFloatingIPPoolID s4.d s4.w).1 = .ok "" →
      (resolveIds c s).1 =
          some (GoError.errorString ("Unable to find network named " ++ s.d.FloatingIpPool)) ∧
        (resolveIds c s).2.d.FloatingIpPoolId = s.d.FloatingIpPoolId) := by
  refine ⟨?_, ?_, ?_, ?_, ?_⟩
  · obtain ⟨n, f, i, p, h⟩ := resolveIds_frame c s
    rw [h]
    exact ⟨rfl, rfl, rfl, rfl⟩
  · intro s1 hname hmode hinit hans
    obtain ⟨he, hd, l, hl, hs⟩ := resolveIds_network_unknown c s s1 ⟨hname, hmode⟩ hinit hans
    rw [resolveIds_stop_network c s _ he]
    rw [newEvents_append s _ _ hl, hd]
    refine ⟨he, rfl, rfl, rfl, rfl, ?_, ?_, ?_⟩
    all_goals
      rw [List.mem_append, not_or]
      exact ⟨not_mem_session_events l _ rfl hs, by simp⟩
  · intro s1 s2 hnet hname hinit hans
    obtain ⟨⟨n, hn⟩, l1, hl1, hs1⟩ := resolveIds_network_frame c s
    rw [hnet] at hn hl1
    simp only [] at hn hl1
    have hname1 : s1.d.FlavorName ≠ "" := by rw [hn]; exact hname
    obtain ⟨he, hd, l, hl, hs⟩ := resolveIds_flavor_unknown c s1 s2 hname1 hinit hans
    rw [resolveIds_stop_flavor c s s1 _ hnet he]
    have htrace : (resolveIds.flavor c s1).2.trace =
        s.trace ++ (l1 ++ (l ++ [Event.GetFlavorID])) := by
      rw [hl, hl1, List.append_assoc]
    rw [newEvents_append s _ _ htrace, hd, hn]
    refine ⟨by rw [he, hn], rfl, rfl, rfl, ?_, ?_⟩
    all_goals
      rw [List.mem_append, not_or, List.mem_append, not_or]
      exact ⟨not_mem_block_events l1 _ _ _ rfl (by simp) (by simp) hs1,
        not_mem_session_events l _ rfl hs, by simp⟩
  · intro s1 s2 s3 hnet hflavor hname hinit hans
    obtain ⟨⟨n, hn⟩, l1, hl1, hs1⟩ := resolveIds_network_frame c s
    rw [hnet] at hn hl1
    simp only [] at hn hl1
    obtain ⟨⟨f, hf⟩, l2, hl2, hs2⟩ := resolveIds_flavor_frame c s1
    rw [hflavor] at hf hl2
    simp only [] at hf hl2
    have hname2 : s2.d.ImageName ≠ "" := by rw [hf, hn]; exact hname
    obtain ⟨he, hd, l, hl, hs⟩ := resolveIds_image_unknown c s2 s3 hname2 hinit hans
    rw [resolveIds_stop_image c s s1 s2 _ hnet hflavor he]
    have htrace : (resolveIds.image c s2).2.trace =
        s.trace ++ (l1 ++ (l2 ++ (l ++ [Event.GetImageID]))) := by
      rw [hl, hl2, hl1]
      simp only [List.append_assoc]
    rw [newEvents_append s _ _ htrace, hd, hf, hn]
    refine ⟨by rw [he, hf, hn], rfl, rfl, ?_⟩
    rw [List.mem_append, not_or, List.mem_append, not_or, List.mem_append, not_or]
    exact ⟨not_mem_block_events l1 _ _ _ rfl (by simp) (by simp) hs1,
      not_mem_block_events l2 _ _ _ rfl (by simp) (by simp) hs2,
      not_mem_session_events l _ rfl hs, by simp⟩
  · intro s1 s2 s3 s4 hnet hflavor himage hname hmode hinit hans
    obtain ⟨⟨n, hn⟩, -⟩ := resolveIds_network_frame c s
    rw [hnet] at hn
    simp only [] at hn
    obtain ⟨⟨f, hf⟩, -⟩ := resolveIds_flavor_frame c s1
    rw [hflavor] at hf
    simp only [] at hf
    obtain ⟨⟨i, hi⟩, -⟩ := resolveIds_image_frame c s2
    rw [himage] at hi
    simp only [] at hi
    have hname3 : s3.d.FloatingIpPool ≠ "" ∧ s3.d.ComputeNetwork = false := by
      rw [hi, hf, hn]; exact ⟨hname, hmode⟩
    obtain ⟨he, hd, -⟩ := resolveIds_floatingIpPool_unknown c s3 s4 hname3 hinit hans
    rw [resolveIds_reach_pool c s s1 s2 s3 hnet hflavor himage, hd, hi, hf, hn]
    exact ⟨by rw [he, hi, hf, hn], rfl⟩

/-- C10 (witness): the flavor name `m1.small` is unknown to the provider. -/
theorem resolveIds_unknown_name_witness :
    (resolveIds unknownFlavorEnv (St.start validConfig)).1 =
        some (GoError.errorString "Unable to find flavor named m1.small") ∧
      (resolveIds unknownFlavorEnv (St.start validConfig)).2.d.FlavorId = "" ∧
      Event.GetImageID ∉ newEvents (St.start validConfig)
        (resolveIds unknownFlavorEnv (St.start validConfig)).2 := by
  have h := (resolveIds_unknown_name unknownFlavorEnv (St.start validConfig)).2.2.1
    (resolveIds.network unknownFlavorEnv (St.start validConfig)).2
    (initCompute unknownFlavorEnv
      (resolveIds.network unknownFlavorEnv (St.start validConfig)).2).2
    rfl (by decide) rfl rfl
  exact ⟨h.1, h.2.1, h.2.2.2.2.1⟩

/-! ## Following the trace through a method -/

/-- Nothing happened. -/
theorem Ext.refl (p : Event → Bool) (s : St σ) : Ext p s s :=
  ⟨[], (List.append_nil _).symm, fun _ h => by cases h⟩

/-- One stretch after the other. -/
theorem Ext.trans {p : Event → Bool} {s s1 s2 : St σ} (h1 : Ext p s s1) (h2 : Ext p s1 s2) :
    Ext p s s2 := by
  obtain ⟨l1, e1, a1⟩ := h1
  obtain ⟨l2, e2, a2⟩ := h2
  refine ⟨l1 ++ l2, by rw [e2, e1, List.append_assoc], ?_⟩
  intro e he
  rcases List.mem_append.mp he with h | h
  · exact a1 e h
  · exact a2 e h

/-- A weaker description of the events. -/
theorem Ext.mono {p q : Event → Bool} {s s1 : St σ} (h : Ext p s s1)
    (hpq : ∀ e, p e = true → q e = true) : Ext q s s1 := by
  obtain ⟨l, e, a⟩ := h
  exact ⟨l, e, fun x hx => hpq x (a x hx)⟩

/-- An event that does not satisfy `p` is not among the events of the stretch. -/
theorem Ext.not_mem {p : Event → Bool} {s s1 : St σ} (h : Ext p s s1) (x : Event)
    (hx : p x = false) : x ∉ newEvents s s1 := by
  obtain ⟨l, e, a⟩ := h
  rw [newEvents_append s s1 l e]
  intro hmem
  have := a x hmem
  rw [hx] at this
  exact Bool.false_ne_true this

/-- The new events of two stretches. -/
theorem newEvents_trans {p q : Event → Bool} {s s1 s2 : St σ} (h1 : Ext p s s1)
    (h2 : Ext q s1 s2) : newEvents s s2 = newEvents s s1 ++ newEvents s1 s2 := by
  obtain ⟨l1, e1, -⟩ := h1
  obtain ⟨l2, e2, -⟩ := h2
  rw [newEvents_append s s1 l1 e1, newEvents_append s1 s2 l2 e2]
  exact newEvents_append s s2 (l1 ++ l2) (by rw [e2, e1, List.append_assoc])

/-- A state with the same trace. -/
theorem Ext.of_trace_eq (p : Event → Bool) {s s1 : St σ} (h : s1.trace = s.trace) :
    Ext p s s1 :=
  ⟨[], by rw [h, List.append_nil], fun _ h => by cases h⟩

/-- One log line. -/
theorem Ext.log (p : Event → Bool) (s : St σ) (m : String) (h : p (Event.log m) = true) :
    Ext p s (s.log m) :=
  ⟨[Event.log m], rfl, fun e he => by rw [List.mem_singleton.mp he]; exact h⟩

/-- One emitted event. -/
theorem Ext.emit (p : Event → Bool) (s : St σ) (x : Event) (h : p x = true) :
    Ext p s (s.emit x) :=
  ⟨[x], rfl, fun e he => by rw [List.mem_singleton.mp he]; exact h⟩

/-- One call of a collaborator. -/
theorem Ext.call (p : Event → Bool) {s s1 : St σ} {x : Event} {f : σ → α × σ} {r : α}
    (h : s.call x f = (r, s1)) (hx : p x = true) : Ext p s s1 :=
  ⟨[x], (St.call_eq h).2.2.2, fun e he => by rw [List.mem_singleton.mp he]; exact hx⟩

/-- Session events are setup events. -/
theorem Event.isSession_isSetup (e : Event) (h : e.isSession = true) : e.isSetup = true := by
  cases e <;> simp_all [Event.isSession, Event.isSetup]

/-- Session events are launch events. -/
theorem Event.isSession_isLaunch (e : Event) (h : e.isSession = true) : e.isLaunch = true := by
  cases e <;> simp_all [Event.isSession, Event.isLaunch]

/-- Session events are removal events. -/
theorem Event.isSession_isRemoval (e : Event) (h : e.isSession = true) : e.isRemoval = true := by
  cases e <;> simp_all [Event.isSession, Event.isRemoval]

/-- The events of `initCompute`. -/
theorem initCompute_ext (c : Env σ) {s s1 : St σ} {r : Option GoError}
    (h : initCompute c s = (r, s1)) : Ext Event.isSession s s1 := by
  have := initCompute_trace c s
  rw [h] at this
  exact this

/-- The events of `initNetwork`. -/
theorem initNetwork_ext (c : Env σ) {s s1 : St σ} {r : Option GoError}
    (h : initNetwork c s = (r, s1)) : Ext Event.isSession s s1 := by
  have := initNetwork_trace c s
  rw [h] at this
  exact this

/-- The driver record after `initCompute`. -/
theorem initCompute_d_eq (c : Env σ) {s s1 : St σ} {r : Option GoError}
    (h : initCompute c s = (r, s1)) : s1.d = s.d := by
  have := initCompute_d c s
  rw [h] at this
  exact this

/-- The events of `createMachine`. -/
theorem createMachine_ext (c : Env σ) (s : St σ) :
    Ext Event.isLaunch s (createMachine c s).2 := by
  unfold createMachine
  rcases h1 : initCompute c (s.log "Creating OpenStack instance...") with ⟨r1, s1⟩
  have e1 : Ext Event.isLaunch s s1 :=
    (Ext.log _ s _ rfl).trans ((initCompute_ext c h1).mono Event.isSession_isLaunch)
  cases r1 with
  | some err => exact e1
  | none =>
    simp only []
    rcases h2 : s1.call Event.CreateInstance (c.CreateInstance s1.d) with ⟨r2, s2⟩
    have e2 := e1.trans (Ext.call Event.isLaunch h2 rfl)
    cases r2 with
    | error err => exact e2
    | ok id => exact e2.trans (Ext.of_trace_eq _ rfl)

/-- The events of `waitForInstanceActive`. -/
theorem waitForInstanceActive_ext (c : Env σ) (s : St σ) :
    Ext Event.isLaunch s (waitForInstanceActive c s).2 := by
  unfold waitForInstanceActive
  rcases h1 : (s.log "Waiting for the OpenStack instance to be ACTIVE...").call
      (Event.WaitForInstanceStatus "ACTIVE") (c.WaitForInstanceStatus s.d "ACTIVE") with ⟨r1, s1⟩
  have e1 : Ext Event.isLaunch s s1 :=
    (Ext.log _ s _ rfl).trans (Ext.call Event.isLaunch h1 rfl)
  cases r1 <;> exact e1

/-- The events of `assignFloatingIP`. -/
theorem assignFloatingIP_ext (c : Env σ) (s : St σ) :
    Ext Event.isLaunch s (assignFloatingIP c s).2 := by
  unfold assignFloatingIP
  rcases h1 : (if s.d.ComputeNetwork = true then initCompute c s else initNetwork c s)
    with ⟨r1, s1⟩
  have e1 : Ext Event.isLaunch s s1 :=
    Ext.mono (assignFloatingIP_session c s s1 r1 h1).2 Event.isSession_isLaunch
  cases r1 with
  | some err => exact e1
  | none =>
    simp only []
    rcases h2 : s1.call Event.GetFloatingIPs (c.GetFloatingIPs s1.d) with ⟨r2, s2⟩
    have e2 := e1.trans (Ext.call Event.isLaunch h2 rfl)
    cases r2 with
    | error err => exact e2
    | ok ips =>
      simp only []
      cases assignFloatingIP.search ips with
      | none =>
        simp only []
        rcases h3 : ((s2.log "Looking for an available floating IP").log
            "No available floating IP found. Allocating a new one...").call
            (Event.AssignFloatingIP { })
            (c.AssignFloatingIP ((s2.log "Looking for an available floating IP").log
              "No available floating IP found. Allocating a new one...").d { })
          with ⟨⟨r3, f3⟩, s3⟩
        have e3 := ((e2.trans (Ext.log _ s2 "Looking for an available floating IP" rfl)).trans
          (Ext.log _ _ "No available floating IP found. Allocating a new one..." rfl)).trans
          (Ext.call Event.isLaunch h3 rfl)
        cases r3 with
        | some err => exact e3
        | none => exact e3.trans (Ext.of_trace_eq _ rfl)
      | some ip =>
        simp only []
        rcases h3 : (((s2.log "Looking for an available floating IP").log
            "Available floating IP found").log "Assigning floating IP to the instance").call
            (Event.AssignFloatingIP ip)
            (c.AssignFloatingIP (((s2.log "Looking for an available floating IP").log
              "Available floating IP found").log "Assigning floating IP to the instance").d ip)
          with ⟨⟨r3, f3⟩, s3⟩
        have e3 := (((e2.trans (Ext.log _ s2 "Looking for an available floating IP" rfl)).trans
          (Ext.log _ _ "Available floating IP found" rfl)).trans
          (Ext.log _ _ "Assigning floating IP to the instance" rfl)).trans
          (Ext.call Event.isLaunch h3 rfl)
        cases r3 with
        | some err => exact e3
        | none => exact e3.trans (Ext.of_trace_eq _ rfl)

/-- The events of the retry loop of `GetIP`. -/
theorem GetIP_retry_ext (c : Env σ) (t : AddressType) (n : Nat) :
    ∀ s : St σ, Ext Event.isLaunch s (GetIP.retry c t n s).2 := by
  induction n with
  | zero =>
    intro s
    exact Ext.refl _ s
  | succ n ih =>
    intro s
    rw [GetIP.retry]
    rcases h1 : s.call Event.GetInstanceIPAddresses (c.GetInstanceIPAddresses s.d) with ⟨r1, s1⟩
    have e1 := Ext.call Event.isLaunch h1 rfl
    cases r1 with
    | error err => exact e1
    | ok addresses =>
      simp only []
      cases GetIP.search t s1.d.IpVersion addresses with
      | some a => exact e1
      | none => exact (e1.trans (Ext.emit _ s1 (Event.Sleep 2) rfl)).trans (ih _)

/-- The events of `GetIP`. -/
theorem GetIP_ext (c : Env σ) (s : St σ) : Ext Event.isLaunch s (GetIP c s).2 := by
  unfold GetIP
  split_ifs with h
  · exact Ext.refl _ s
  · rcases h1 : initCompute c (s.log "Looking for the IP address...") with ⟨r1, s1⟩
    have e1 : Ext Event.isLaunch s s1 :=
      (Ext.log _ s _ rfl).trans ((initCompute_ext c h1).mono Event.isSession_isLaunch)
    cases r1 with
    | some err => exact e1
    | none => exact e1.trans (GetIP_retry_ext c _ 200 s1)

/-- The events of `lookForIPAddress`. -/
theorem lookForIPAddress_ext (c : Env σ) (s : St σ) :
    Ext Event.isLaunch s (lookForIPAddress c s).2 := by
  unfold lookForIPAddress
  have e1 := GetIP_ext c s
  rcases h1 : GetIP c s with ⟨r1, s1⟩
  rw [h1] at e1
  cases r1 with
  | error err => exact e1
  | ok ip =>
    exact e1.trans ((Ext.of_trace_eq _ rfl).trans (Ext.log _ _ "IP address found" rfl))

/-- The events of `loadSSHKey`, which does not write the driver record. -/
theorem loadSSHKey_ext (c : Env σ) (s : St σ) :
    Ext Event.isSetup s (loadSSHKey c s).2 ∧ (loadSSHKey c s).2.d = s.d := by
  unfold loadSSHKey
  rcases h1 : initCompute c (s.log "Loading Key Pair") with ⟨r1, s1⟩
  have e1 : Ext Event.isSetup s s1 :=
    (Ext.log _ s _ rfl).trans ((initCompute_ext c h1).mono Event.isSession_isSetup)
  have d1 : s1.d = s.d :=
    (initCompute_d_eq c h1 : s1.d = (s.log "Loading Key Pair").d)
  cases r1 with
  | some err => exact ⟨e1, d1⟩
  | none =>
    simp only []
    rcases h2 : (s1.log "Loading Private Key from").call (Event.ReadFile s1.d.PrivateKeyFile)
      (c.ReadFile s1.d.PrivateKeyFile) with ⟨r2, s2⟩
    have e2 := (e1.trans (Ext.log _ s1 "Loading Private Key from" rfl)).trans
      (Ext.call Event.isSetup h2 rfl)
    have d2 : s2.d = s.d := by rw [(St.call_eq h2).2.1]; exact d1
    cases r2 with
    | error err => exact ⟨e2, d2⟩
    | ok privateKey =>
      simp only []
      rcases h3 : s2.call (Event.GetPublicKey s2.d.KeyPairName)
        (c.GetPublicKey s2.d.KeyPairName) with ⟨r3, s3⟩
      have e3 := e2.trans (Ext.call Event.isSetup h3 rfl)
      have d3 : s3.d = s.d := by rw [(St.call_eq h3).2.1]; exact d2
      cases r3 with
      | error err => exact ⟨e3, d3⟩
      | ok publicKey =>
        simp only []
        rcases h4 : s3.call (Event.WriteFile (privateSSHKeyPath c s3.d) privateKey 0o600)
          (c.WriteFile (privateSSHKeyPath c s3.d) privateKey 0o600) with ⟨r4, s4⟩
        have e4 := e3.trans (Ext.call Event.isSetup h4 rfl)
        have d4 : s4.d = s.d := by rw [(St.call_eq h4).2.1]; exact d3
        cases r4 with
        | some err => exact ⟨e4, d4⟩
        | none =>
          simp only []
          rcases h5 : s4.call (Event.WriteFile (publicSSHKeyPath c s4.d) publicKey 0o600)
            (c.WriteFile (publicSSHKeyPath c s4.d) publicKey 0o600) with ⟨r5, s5⟩
          have e5 := e4.trans (Ext.call Event.isSetup h5 rfl)
          have d5 : s5.d = s.d := by rw [(St.call_eq h5).2.1]; exact d4
          cases r5 <;> exact ⟨e5, d5⟩

/-- The events of `createSSHKey`, which writes no field but `KeyPairName`. -/
theorem createSSHKey_ext (c : Env σ) (s : St σ) :
    Ext Event.isSetup s (createSSHKey c s).2 ∧
      (createSSHKey c s).2.d = { s.d with KeyPairName := sanitizeKeyPairName s.d.KeyPairName } := by
  have key : ∀ s0 : St σ, Ext Event.isSetup s s0 →
      s0.d = { s.d with KeyPairName := sanitizeKeyPairName s.d.KeyPairName } →
      Ext Event.isSetup s (createSSHKey.body c s0).2 ∧
        (createSSHKey.body c s0).2.d =
          { s.d with KeyPairName := sanitizeKeyPairName s.d.KeyPairName } := by
    intro s0 e0 d0
    unfold createSSHKey.body
    rcases h1 : s0.call (Event.GenerateSSHKey (c.GetSSHKeyPath s0.d))
      (c.GenerateSSHKey (c.GetSSHKeyPath s0.d)) with ⟨r1, s1⟩
    have e1 := e0.trans (Ext.call Event.isSetup h1 rfl)
    have d1 := (St.call_eq h1).2.1.trans d0
    cases r1 with
    | some err => exact ⟨e1, d1⟩
    | none =>
      simp only []
      rcases h2 : s1.call (Event.ReadFile (publicSSHKeyPath c s1.d))
        (c.ReadFile (publicSSHKeyPath c s1.d)) with ⟨r2, s2⟩
      have e2 := e1.trans (Ext.call Event.isSetup h2 rfl)
      have d2 := (St.call_eq h2).2.1.trans d1
      cases r2 with
      | error err => exact ⟨e2, d2⟩
      | ok publicKey =>
        simp only []
        rcases h3 : initCompute c s2 with ⟨r3, s3⟩
        have e3 := e2.trans ((initCompute_ext c h3).mono Event.isSession_isSetup)
        have d3 := (initCompute_d_eq c h3).trans d2
        cases r3 with
        | some err => exact ⟨e3, d3⟩
        | none =>
          simp only []
          rcases h4 : s3.call (Event.CreateKeyPair s3.d.KeyPairName publicKey)
            (c.CreateKeyPair s3.d s3.d.KeyPairName publicKey) with ⟨r4, s4⟩
          have e4 := e3.trans (Ext.call Event.isSetup h4 rfl)
          have d4 := (St.call_eq h4).2.1.trans d3
          cases r4 <;> exact ⟨e4, d4⟩
  exact key _ ((Ext.of_trace_eq _ rfl).trans (Ext.log _ _ "Creating Key Pair..." rfl)) rfl

/-- The events of the key pair step of `Create`, which leaves `MachineId`
as it was. -/
theorem Create_keyPair_ext (c : Env σ) (s : St σ) :
    Ext Event.isSetup s (Create.keyPair c s).2 ∧
      (Create.keyPair c s).2.d.MachineId = s.d.MachineId := by
  unfold Create.keyPair
  split_ifs with h
  · obtain ⟨e1, d1⟩ := loadSSHKey_ext c s
    exact ⟨e1, by rw [d1]⟩
  · rcases h1 : s.call Event.GenerateRandomID c.GenerateRandomID with ⟨id, s1⟩
    have e1 := Ext.call Event.isSetup h1 rfl
    have d1 := (St.call_eq h1).2.1
    simp only []
    obtain ⟨e2, d2⟩ := createSSHKey_ext c
      { d := { s1.d with KeyPairName := s1.d.MachineName ++ "-" ++ id }, w := s1.w,
        trace := s1.trace }
    refine ⟨(e1.trans (Ext.of_trace_eq _ rfl)).trans e2, ?_⟩
    rw [d2]
    show s1.d.MachineId = s.d.MachineId
    rw [d1]

/-- The events of one block of `resolveIds` are setup events. -/
theorem ext_of_block {s s1 : St σ} {a b : Event}
    (h : ∃ l, s1.trace = s.trace ++ l ∧ ∀ e ∈ l, e.isSession = true ∨ e = a ∨ e = b)
    (ha : a.isSetup = true) (hb : b.isSetup = true) :
    Ext Event.isSetup s s1 := by
  obtain ⟨l, hl, hs⟩ := h
  refine ⟨l, hl, fun e he => ?_⟩
  rcases hs e he with h1 | h1 | h1
  · exact Event.isSession_isSetup e h1
  · rw [h1]; exact ha
  · rw [h1]; exact hb

/-- The events of `resolveIds`. -/
theorem resolveIds_ext (c : Env σ) (s : St σ) : Ext Event.isSetup s (resolveIds c s).2 := by
  have e1 : Ext Event.isSetup s (resolveIds.network c s).2 :=
    ext_of_block (resolveIds_network_frame c s).2 rfl rfl
  rcases h1 : resolveIds.network c s with ⟨r1, s1⟩
  rw [h1] at e1
  cases r1 with
  | some e =>
    rw [resolveIds_stop_network c s e (by rw [h1]), h1]
    exact e1
  | none =>
    have e2 : Ext Event.isSetup s1 (resolveIds.flavor c s1).2 :=
      ext_of_block (resolveIds_flavor_frame c s1).2 rfl rfl
    rcases h2 : resolveIds.flavor c s1 with ⟨r2, s2⟩
    rw [h2] at e2
    cases r2 with
    | some e =>
      rw [resolveIds_stop_flavor c s s1 e h1 (by rw [h2]), h2]
      exact e1.trans e2
    | none =>
      have e3 : Ext Event.isSetup s2 (resolveIds.image c s2).2 :=
        ext_of_block (resolveIds_image_frame c s2).2 rfl rfl
      rcases h3 : resolveIds.image c s2 with ⟨r3, s3⟩
      rw [h3] at e3
      cases r3 with
      | some e =>
        rw [resolveIds_stop_image c s s1 s2 e h1 h2 (by rw [h3]), h3]
        exact (e1.trans e2).trans e3
      | none =>
        rw [resolveIds_reach_pool c s s1 s2 s3 h1 h2 h3]
        exact ((e1.trans e2).trans e3).trans
          (ext_of_block (resolveIds_floatingIpPool_frame c s3).2 rfl rfl)

/-- The events of `Remove` after its entry log lines. -/
theorem Remove_ext (c : Env σ) (s : St σ) :
    Ext Event.isRemoval (Remove.entry s) (Remove c s).2 := by
  unfold Remove
  rcases h1 : initCompute c (Remove.entry s) with ⟨r1, s1⟩
  have e1 : Ext Event.isRemoval (Remove.entry s) s1 :=
    (initCompute_ext c h1).mono Event.isSession_isRemoval
  cases r1 with
  | some err => exact e1
  | none =>
    simp only []
    rcases h2 : s1.call Event.DeleteInstance (c.DeleteInstance s1.d) with ⟨r2, s2⟩
    have e2 := e1.trans (Ext.call Event.isRemoval h2 rfl)
    simp only []
    have e3 : Ext Event.isRemoval (Remove.entry s) (Remove.afterDelete r2 s2).2 := by
      unfold Remove.afterDelete
      split
      · exact e2
      · split_ifs
        · exact e2.trans (Ext.log _ s2
            "Remote instance does not exist, proceeding with removing local reference" rfl)
        · exact e2
      · exact e2
      · exact e2
    rcases h3 : Remove.afterDelete r2 s2 with ⟨r3, s3⟩
    rw [h3] at e3
    cases r3 with
    | some err => exact e3
    | none =>
      simp only []
      split_ifs with hE
      · rcases h4 : (s3.log "deleting key pair...").call (Event.DeleteKeyPair s3.d.KeyPairName)
          (c.DeleteKeyPair s3.d s3.d.KeyPairName) with ⟨r4, s4⟩
        have e4 := (e3.trans (Ext.log _ s3 "deleting key pair..." rfl)).trans
          (Ext.call Event.isRemoval h4 rfl)
        cases r4 <;> exact e4
      · exact e3

/-- One run of `Remove` logs its entry line once. -/
theorem Remove_attempt_once (c : Env σ) (s : St σ) :
    (newEvents s (Remove c s).2).count removeAttempt = 1 ∧
      ∃ l, (Remove c s).2.trace = s.trace ++ l := by
  obtain ⟨l, hl, hs⟩ := Remove_ext c s
  have htrace : (Remove c s).2.trace =
      s.trace ++ (Event.log "deleting instance..." :: removeAttempt :: l) := by
    rw [hl]
    simp [Remove.entry, removeAttempt]
  refine ⟨?_, _, htrace⟩
  rw [newEvents_append s _ _ htrace]
  have h0 : l.count removeAttempt = 0 := by
    rw [List.count_eq_zero]
    intro hmem
    have := hs _ hmem
    simp [removeAttempt, Event.isRemoval] at this
  rw [List.count_cons, List.count_cons, h0]
  simp [removeAttempt]

/-! ## Create: theorems -/

/-- Method `Create` returns the error of `resolveIds` as it is. -/
theorem Create_at_resolveIds (c : Env σ) (s s1 : St σ) (E : GoError)
    (h : resolveIds c s = (some E, s1)) : Create c s = (some E, s1) := by
  unfold Create
  rw [h]

/-- Method `Create` returns the error of the key pair step as it is. -/
theorem Create_at_keyPair (c : Env σ) (s s1 s2 : St σ) (E : GoError)
    (h1 : resolveIds c s = (none, s1)) (h : Create.keyPair c s1 = (some E, s2)) :
    Create c s = (some E, s2) := by
  unfold Create
  rw [h1]
  simp only []
  rw [h]

/-- Method `Create` returns the error of `createMachine` as it is. -/
theorem Create_at_createMachine (c : Env σ) (s s1 s2 s3 : St σ) (E : GoError)
    (h1 : resolveIds c s = (none, s1)) (h2 : Create.keyPair c s1 = (none, s2))
    (h : createMachine c s2 = (some E, s3)) : Create c s = (some E, s3) := by
  unfold Create
  rw [h1]
  simp only []
  rw [h2]
  simp only []
  rw [h]

/-- Method `Create` hands a failure of a step after the creation of the instance
to `failedToCreate`, in the state that step left. -/
theorem Create_compensates (c : Env σ) (s s1 s2 s3 sf : St σ) (E : GoError)
    (h1 : resolveIds c s = (none, s1)) (h2 : Create.keyPair c s1 = (none, s2))
    (h3 : createMachine c s2 = (none, s3))
    (hfail : waitForInstanceActive c s3 = (some E, sf) ∨
      (∃ s4, waitForInstanceActive c s3 = (none, s4) ∧ s4.d.FloatingIpPool ≠ "" ∧
        assignFloatingIP c s4 = (some E, sf)) ∨
      (∃ s4 s5, waitForInstanceActive c s3 = (none, s4) ∧
        ((s4.d.FloatingIpPool ≠ "" ∧ assignFloatingIP c s4 = (none, s5)) ∨
          (s4.d.FloatingIpPool = "" ∧ s5 = s4)) ∧
        lookForIPAddress c s5 = (some E, sf))) :
    Create c s = failedToCreate c E sf := by
  unfold Create
  rw [h1]
  simp only []
  rw [h2]
  simp only []
  rw [h3]
  simp only []
  rcases hfail with hw | ⟨s4, hw, hp, ha⟩ | ⟨s4, s5, hw, hmid, hl⟩
  · rw [hw]
  · rw [hw]
    simp only [Create.afterActive, if_pos hp, ha]
  · rw [hw]
    rcases hmid with ⟨hp, ha⟩ | ⟨hp, rfl⟩
    · simp only [Create.afterActive, if_pos hp, ha, hl]
    · simp only [Create.afterActive, hp, ne_eq, not_true_eq_false, if_false, hl]

/-- The events up to the failure of a step after the creation of the
instance are setup and launch events. -/
theorem Create_reach (c : Env σ) (s s1 s2 s3 sf : St σ) (E : GoError)
    (h1 : resolveIds c s = (none, s1)) (h2 : Create.keyPair c s1 = (none, s2))
    (h3 : createMachine c s2 = (none, s3))
    (hfail : waitForInstanceActive c s3 = (some E, sf) ∨
      (∃ s4, waitForInstanceActive c s3 = (none, s4) ∧ s4.d.FloatingIpPool ≠ "" ∧
        assignFloatingIP c s4 = (some E, sf)) ∨
      (∃ s4 s5, waitForInstanceActive c s3 = (none, s4) ∧
        ((s4.d.FloatingIpPool ≠ "" ∧ assignFloatingIP c s4 = (none, s5)) ∨
          (s4.d.FloatingIpPool = "" ∧ s5 = s4)) ∧
        lookForIPAddress c s5 = (some E, sf))) :
    Ext (fun e => e.isSetup || e.isLaunch) s sf := by
  have up : ∀ {a b : St σ}, Ext Event.isSetup a b → Ext (fun e => e.isSetup || e.isLaunch) a b :=
    fun h => h.mono (fun e he => by simp [he])
  have upL : ∀ {a b : St σ}, Ext Event.isLaunch a b →
      Ext (fun e => e.isSetup || e.isLaunch) a b :=
    fun h => h.mono (fun e he => by simp [he])
  have e1 := resolveIds_ext c s
  rw [h1] at e1
  have e2 := (Create_keyPair_ext c s1).1
  rw [h2] at e2
  have e3 := createMachine_ext c s2
  rw [h3] at e3
  have e123 := ((up e1).trans (up e2)).trans (upL e3)
  have ew := waitForInstanceActive_ext c s3
  rcases hfail with hw | ⟨s4, hw, hp, ha⟩ | ⟨s4, s5, hw, hmid, hl⟩
  · rw [hw] at ew
    exact e123.trans (upL ew)
  · rw [hw] at ew
    have ea := assignFloatingIP_ext c s4
    rw [ha] at ea
    exact (e123.trans (upL ew)).trans (upL ea)
  · rw [hw] at ew
    have el := lookForIPAddress_ext c s5
    rw [hl] at el
    rcases hmid with ⟨hp, ha⟩ | ⟨hp, rfl⟩
    · have ea := assignFloatingIP_ext c s4
      rw [ha] at ea
      exact ((e123.trans (upL ew)).trans (upL ea)).trans (upL el)
    · exact (e123.trans (upL ew)).trans (upL el)

/-- C1: when `Create` has created the instance and a later step (wait for
ACTIVE, floating IP assignment, or IP location) fails with `E` in the state
`sf`, `Create` runs `Remove` once on `sf` and nothing after it: its final
state is the one `Remove` left and its trace holds one `Remove` attempt.  It
returns `E` itself when that `Remove` succeeds, and the error
`fmt.Errorf("%v: %v", E, e)` when that `Remove` fails with `e`. -/
theorem Create_failure_after_instance (c : Env σ) (s s1 s2 s3 sf : St σ) (E : GoError)
    (h1 : resolveIds c s = (none, s1)) (h2 : Create.keyPair c s1 = (none, s2))
    (h3 : createMachine c s2 = (none, s3))
    (hfail : waitForInstanceActive c s3 = (some E, sf) ∨
      (∃ s4, waitForInstanceActive c s3 = (none, s4) ∧ s4.d.FloatingIpPool ≠ "" ∧
        assignFloatingIP c s4 = (some E, sf)) ∨
      (∃ s4 s5, waitForInstanceActive c s3 = (none, s4) ∧
        ((s4.d.FloatingIpPool ≠ "" ∧ assignFloatingIP c s4 = (none, s5)) ∨
          (s4.d.FloatingIpPool = "" ∧ s5 = s4)) ∧
        lookForIPAddress c s5 = (some E, sf))) :
    (Create c s).2 = (Remove c sf).2 ∧
    (newEvents s (Create c s).2).count removeAttempt = 1 ∧
    ((Remove c sf).1 = none → (Create c s).1 = some E) ∧
    (∀ e, (Remove c sf).1 = some e →
      (Create c s).1 = some (GoError.errorString (E.Error ++ ": " ++ e.Error))) := by
  have hC := Create_compensates c s s1 s2 s3 sf E h1 h2 h3 hfail
  have hreach := Create_reach c s s1 s2 s3 sf E h1 h2 h3 hfail
  have hstate : (Create c s).2 = (Remove c sf).2 := by
    rw [hC]
    unfold failedToCreate
    rcases Remove c sf with ⟨r, s9⟩
    cases r <;> rfl
  refine ⟨hstate, ?_, ?_, ?_⟩
  · obtain ⟨hone, l, hl⟩ := Remove_attempt_once c sf
    have hR : Ext (fun _ => true) sf (Remove c sf).2 := ⟨l, hl, fun _ _ => rfl⟩
    rw [hstate, newEvents_trans hreach hR, List.count_append, hone]
    have h0 : (newEvents s sf).count removeAttempt = 0 := by
      rw [List.count_eq_zero]
      exact hreach.not_mem removeAttempt rfl
    rw [h0]
  · intro hok
    rw [hC]
    unfold failedToCreate
    rcases hR : Remove c sf with ⟨r, s9⟩
    rw [hR] at hok
    simp only [] at hok
    subst hok
    rfl
  · intro e he
    rw [hC]
    unfold failedToCreate
    rcases hR : Remove c sf with ⟨r, s9⟩
    rw [hR] at he
    simp only [] at he
    subst he
    rfl

/-- C1 (witness): the instance never becomes active; once the compensating
`Remove` succeeds, once it fails too. -/
theorem Create_failure_after_instance_witness :
    ((Create stuckEnv (St.start validConfig)).1 =
        some (GoError.errorString "timeout waiting for ACTIVE") ∧
      (newEvents (St.start validConfig)
        (Create stuckEnv (St.start validConfig)).2).count removeAttempt = 1) ∧
    (Create brokenEnv (St.start validConfig)).1 =
      some (GoError.errorString "timeout waiting for ACTIVE: delete refused") := by
  have h := Create_failure_after_instance stuckEnv (St.start validConfig)
    (resolveIds stuckEnv (St.start validConfig)).2
    (Create.keyPair stuckEnv (resolveIds stuckEnv (St.start validConfig)).2).2
    (createMachine stuckEnv
      (Create.keyPair stuckEnv (resolveIds stuckEnv (St.start validConfig)).2).2).2
    (waitForInstanceActive stuckEnv (createMachine stuckEnv
      (Create.keyPair stuckEnv (resolveIds stuckEnv (St.start validConfig)).2).2).2).2
    (GoError.errorString "timeout waiting for ACTIVE") rfl rfl rfl (Or.inl rfl)
  have h2 := Create_failure_after_instance brokenEnv (St.start validConfig)
    (resolveIds brokenEnv (St.start validConfig)).2
    (Create.keyPair brokenEnv (resolveIds brokenEnv (St.start validConfig)).2).2
    (createMachine brokenEnv
      (Create.keyPair brokenEnv (resolveIds brokenEnv (St.start validConfig)).2).2).2
    (waitForInstanceActive brokenEnv (createMachine brokenEnv
      (Create.keyPair brokenEnv (resolveIds brokenEnv (St.start validConfig)).2).2).2).2
    (GoError.errorString "timeout waiting for ACTIVE") rfl rfl rfl (Or.inl rfl)
  exact ⟨⟨h.2.2.1 rfl, h.2.1⟩, h2.2.2.2 (GoError.errorString "delete refused") rfl⟩

/-- C2 (counterexample): `resolveIds` fails, the key pair step fails,
`createMachine` fails: each time `Create` returns the step's error and its
trace holds no `Remove` attempt and no `DeleteInstance` call. -/
theorem Create_no_compensation_counterexample :
    ((resolveIds unknownFlavorEnv (St.start validConfig)).1 =
        some (GoError.errorString "Unable to find flavor named m1.small") ∧
      (Create unknownFlavorEnv (St.start validConfig)).1 =
        some (GoError.errorString "Unable to find flavor named m1.small") ∧
      removeAttempt ∉ (Create unknownFlavorEnv (St.start validConfig)).2.trace ∧
      Event.DeleteInstance ∉ (Create unknownFlavorEnv (St.start validConfig)).2.trace) ∧
    ((Create.keyPair keyFailEnv (resolveIds keyFailEnv (St.start validConfig)).2).1 =
        some (GoError.errorString "cannot write key") ∧
      (Create keyFailEnv (St.start validConfig)).1 =
        some (GoError.errorString "cannot write key") ∧
      removeAttempt ∉ (Create keyFailEnv (St.start validConfig)).2.trace ∧
      Event.DeleteInstance ∉ (Create keyFailEnv (St.start validConfig)).2.trace) ∧
    ((createMachine quotaEnv (Create.keyPair quotaEnv
          (resolveIds quotaEnv (St.start validConfig)).2).2).1 =
        some (GoError.errorString "quota exceeded") ∧
      (Create quotaEnv (St.start validConfig)).1 =
        some (GoError.errorString "quota exceeded") ∧
      removeAttempt ∉ (Create quotaEnv (St.start validConfig)).2.trace ∧
      Event.DeleteInstance ∉ (Create quotaEnv (St.start validConfig)).2.trace) := by
  refine ⟨⟨rfl, rfl, ?_, ?_⟩, ⟨rfl, rfl, ?_, ?_⟩, ⟨rfl, rfl, ?_, ?_⟩⟩ <;> decide

/-- C2 (amended): a failure of `resolveIds`, of the key pair step or of
`createMachine` is returned by `Create` as it is, with no `Remove` attempt; a
failure of a later step (wait for ACTIVE, floating IP assignment, IP
location) with `E` makes `Create` run `Remove` on the state that step left
before it returns; the error returned is `E` when that `Remove` succeeds,
and `E` combined with the error of `Remove`, `fmt.Errorf("%v: %v", E, e)`,
when that `Remove` fails with `e`. -/
theorem Create_compensation_by_step (c : Env σ) (s : St σ) :
    (∀ E s1, resolveIds c s = (some E, s1) →
      Create c s = (some E, s1) ∧ removeAttempt ∉ newEvents s (Create c s).2) ∧
    (∀ E s1 s2, resolveIds c s = (none, s1) → Create.keyPair c s1 = (some E, s2) →
      Create c s = (some E, s2) ∧ removeAttempt ∉ newEvents s (Create c s).2) ∧
    (∀ E s1 s2 s3, resolveIds c s = (none, s1) → Create.keyPair c s1 = (none, s2) →
      createMachine c s2 = (some E, s3) →
      Create c s = (some E, s3) ∧ removeAttempt ∉ newEvents s (Create c s).2) ∧
    (∀ E s1 s2 s3 sf, resolveIds c s = (none, s1) → Create.keyPair c s1 = (none, s2) →
      createMachine c s2 = (none, s3) →
      (waitForInstanceActive c s3 = (some E, sf) ∨
        (∃ s4, waitForInstanceActive c s3 = (none, s4) ∧ s4.d.FloatingIpPool ≠ "" ∧
          assignFloatingIP c s4 = (some E, sf)) ∨
        (∃ s4 s5, waitForInstanceActive c s3 = (none, s4) ∧
          ((s4.d.FloatingIpPool ≠ "" ∧ assignFloatingIP c s4 = (none, s5)) ∨
            (s4.d.FloatingIpPool = "" ∧ s5 = s4)) ∧
          lookForIPAddress c s5 = (some E, sf))) →
      (Create c s).2 = (Remove c sf).2 ∧
        removeAttempt ∈ newEvents sf (Create c s).2 ∧
        ((Remove c sf).1 = none → (Create c s).1 = some E) ∧
        (∀ e, (Remove c sf).1 = some e →
          (Create c s).1 = some (GoError.errorString (E.Error ++ ": " ++ e.Error)))) := by
  have up : ∀ {a b : St σ}, Ext Event.isSetup a b → Ext (fun e => e.isSetup || e.isLaunch) a b :=
    fun h => h.mono (fun e he => by simp [he])
  have upL : ∀ {a b : St σ}, Ext Event.isLaunch a b →
      Ext (fun e => e.isSetup || e.isLaunch) a b :=
    fun h => h.mono (fun e he => by simp [he])
  refine ⟨?_, ?_, ?_, ?_⟩
  · intro E s1 h1
    have e1 := resolveIds_ext c s
    rw [h1] at e1
    rw [Create_at_resolveIds c s s1 E h1]
    exact ⟨rfl, e1.not_mem removeAttempt rfl⟩
  · intro E s1 s2 h1 h2
    have e1 := resolveIds_ext c s
    rw [h1] at e1
    have e2 := (Create_keyPair_ext c s1).1
    rw [h2] at e2
    rw [Create_at_keyPair c s s1 s2 E h1 h2]
    exact ⟨rfl, (e1.trans e2).not_mem removeAttempt rfl⟩
  · intro E s1 s2 s3 h1 h2 h3
    have e1 := resolveIds_ext c s
    rw [h1] at e1
    have e2 := (Create_keyPair_ext c s1).1
    rw [h2] at e2
    have e3 := createMachine_ext c s2
    rw [h3] at e3
    rw [Create_at_createMachine c s s1 s2 s3 E h1 h2 h3]
    exact ⟨rfl, (((up e1).trans (up e2)).trans (upL e3)).not_mem removeAttempt rfl⟩
  · intro E s1 s2 s3 sf h1 h2 h3 hfail
    have hC := Create_compensates c s s1 s2 s3 sf E h1 h2 h3 hfail
    rw [hC]
    unfold failedToCreate
    obtain ⟨l, hl, -⟩ := Remove_ext c sf
    have hmem : removeAttempt ∈ newEvents sf (Remove c sf).2 := by
      rw [newEvents_append sf _ (Event.log "deleting instance..." :: removeAttempt :: l)
        (by rw [hl]; simp [Remove.entry, removeAttempt])]
      simp
    rcases hR : Remove c sf with ⟨r, s9⟩
    rw [hR] at hmem
    cases r with
    | none =>
      refine ⟨rfl, hmem, fun _ => rfl, ?_⟩
      intro e he
      simp at he
    | some e0 =>
      refine ⟨rfl, hmem, ?_, ?_⟩
      · intro he
        simp at he
      · intro e he
        simp only [Option.some.injEq] at he
        subst he
        rfl

/-- C2 (witness): the flavor name is unknown: no `Remove` attempt; the
instance never becomes active: a `Remove` attempt, then the wait error when
that `Remove` succeeds and the combined error when it fails too. -/
theorem Create_compensation_by_step_witness :
    removeAttempt ∉ newEvents (St.start validConfig)
      (Create unknownFlavorEnv (St.start validConfig)).2 ∧
    removeAttempt ∈ newEvents
      (waitForInstanceActive stuckEnv (createMachine stuckEnv
        (Create.keyPair stuckEnv (resolveIds stuckEnv (St.start validConfig)).2).2).2).2
      (Create stuckEnv (St.start validConfig)).2 ∧
    (Create stuckEnv (St.start validConfig)).1 =
      some (GoError.errorString "timeout waiting for ACTIVE") ∧
    (Create brokenEnv (St.start validConfig)).1 =
      some (GoError.errorString "timeout waiting for ACTIVE: delete refused") := by
  have h1 := ((Create_compensation_by_step unknownFlavorEnv (St.start validConfig)).1
    (GoError.errorString "Unable to find flavor named m1.small")
    (resolveIds unknownFlavorEnv (St.start validConfig)).2 rfl).2
  have h2 := (Create_compensation_by_step stuckEnv (St.start validConfig)).2.2.2
    (GoError.errorString "timeout waiting for ACTIVE")
    (resolveIds stuckEnv (St.start validConfig)).2
    (Create.keyPair stuckEnv (resolveIds stuckEnv (St.start validConfig)).2).2
    (createMachine stuckEnv
      (Create.keyPair stuckEnv (resolveIds stuckEnv (St.start validConfig)).2).2).2
    (waitForInstanceActive stuckEnv (createMachine stuckEnv
      (Create.keyPair stuckEnv (resolveIds stuckEnv (St.start validConfig)).2).2).2).2
    rfl rfl rfl (Or.inl rfl)
  have h3 := (Create_compensation_by_step brokenEnv (St.start validConfig)).2.2.2
    (GoError.errorString "timeout waiting for ACTIVE")
    (resolveIds brokenEnv (St.start validConfig)).2
    (Create.keyPair brokenEnv (resolveIds brokenEnv (St.start validConfig)).2).2
    (createMachine brokenEnv
      (Create.keyPair brokenEnv (resolveIds brokenEnv (St.start validConfig)).2).2).2
    (waitForInstanceActive brokenEnv (createMachine brokenEnv
      (Create.keyPair brokenEnv (resolveIds brokenEnv (St.start validConfig)).2).2).2).2
    rfl rfl rfl (Or.inl rfl)
  exact ⟨h1, h2.2.1, h2.2.2.1 rfl, h3.2.2.2 (GoError.errorString "delete refused") rfl⟩

/-- C3: when key pair provisioning fails during `Create` with `E`
(`loadSSHKey` when `KeyPairName` is set, `createSSHKey` under the generated
name otherwise), `Create` returns `E`, the client's `CreateInstance` is not
called, and `MachineId` is left as it was. -/
theorem Create_key_pair_failure (c : Env σ) (s s1 s2 : St σ) (E : GoError)
    (h1 : resolveIds c s = (none, s1))
    (hkey : (s.d.KeyPairName ≠ "" ∧ loadSSHKey c s1 = (some E, s2)) ∨
      (s.d.KeyPairName = "" ∧
        createSSHKey c
          { d := { s1.d with
                   KeyPairName := s1.d.MachineName ++ "-" ++ (c.GenerateRandomID s1.w).1 },
            w := (c.GenerateRandomID s1.w).2,
            trace := s1.trace ++ [Event.GenerateRandomID] } = (some E, s2))) :
    (Create c s).1 = some E ∧ (Create c s).2 = s2 ∧
      Event.CreateInstance ∉ newEvents s (Create c s).2 ∧
      (Create c s).2.d.MachineId = s.d.MachineId := by
  obtain ⟨n, f, i, p, hframe⟩ := resolveIds_frame c s
  rw [h1] at hframe
  simp only [] at hframe
  have hname : s1.d.KeyPairName = s.d.KeyPairName := by rw [hframe]
  have hmid : s1.d.MachineId = s.d.MachineId := by rw [hframe]
  have h2 : Create.keyPair c s1 = (some E, s2) := by
    unfold Create.keyPair
    rcases hkey with ⟨hn, hload⟩ | ⟨hn, hcreate⟩
    · rw [if_pos (by rw [hname]; exact hn), hload]
    · rw [if_neg (by rw [hname, hn]; exact fun h => h rfl)]
      exact hcreate
  have e1 := resolveIds_ext c s
  rw [h1] at e1
  obtain ⟨e2, d2⟩ := Create_keyPair_ext c s1
  rw [h2] at e2 d2
  rw [Create_at_keyPair c s s1 s2 E h1 h2]
  exact ⟨rfl, rfl, (e1.trans e2).not_mem Event.CreateInstance rfl, d2.trans hmid⟩

/-- C3 (witness): the key pair cannot be generated. -/
theorem Create_key_pair_failure_witness :
    (Create keyFailEnv (St.start validConfig)).1 =
        some (GoError.errorString "cannot write key") ∧
      Event.CreateInstance ∉ newEvents (St.start validConfig)
        (Create keyFailEnv (St.start validConfig)).2 ∧
      (Create keyFailEnv (St.start validConfig)).2.d.MachineId = "" := by
  have h := Create_key_pair_failure keyFailEnv (St.start validConfig)
    (resolveIds keyFailEnv (St.start validConfig)).2
    (Create.keyPair keyFailEnv (resolveIds keyFailEnv (St.start validConfig)).2).2
    (GoError.errorString "cannot write key") rfl (Or.inr ⟨rfl, rfl⟩)
  exact ⟨h.1, h.2.2.1, h.2.2.2⟩

/-! ## State and URL: theorems -/

/-- The `switch` of `GetState` on a status that is none of the six known
ones. -/
theorem GetState_switch_other (status : String) (h1 : status ≠ "ACTIVE")
    (h2 : status ≠ "PAUSED") (h3 : status ≠ "SUSPENDED") (h4 : status ≠ "SHUTOFF")
    (h5 : status ≠ "BUILDING") (h6 : status ≠ "ERROR") :
    GetState.switch status = State.None := by
  unfold GetState.switch
  split <;> first | rfl | contradiction

/-- Method `GetState` once the session is initialised and the status query has
answered `status`. -/
theorem GetState_answered (c : Env σ) (s s1 : St σ) (status : String)
    (hinit : initCompute c (s.log "Get status for OpenStack instance...") = (none, s1))
    (hans : (c.GetInstanceState s1.d s1.w).1 = .ok status) :
    GetState c s = ((GetState.switch status, none),
      (s1.call Event.GetInstanceState (c.GetInstanceState s1.d)).2.log
        "State for OpenStack instance") := by
  unfold GetState
  rw [hinit]
  simp only []
  rw [St.call_split, hans]

/-- Method `GetState` when the session cannot be initialised. -/
theorem GetState_init_fail (c : Env σ) (s s1 : St σ) (err : GoError)
    (hinit : initCompute c (s.log "Get status for OpenStack instance...") = (some err, s1)) :
    GetState c s = ((State.None, some err), s1) := by
  unfold GetState
  rw [hinit]

/-- Method `GetState` when the status query fails. -/
theorem GetState_query_fail (c : Env σ) (s s1 : St σ) (err : GoError)
    (hinit : initCompute c (s.log "Get status for OpenStack instance...") = (none, s1))
    (hans : (c.GetInstanceState s1.d s1.w).1 = .error err) :
    GetState c s = ((State.None, some err),
      (s1.call Event.GetInstanceState (c.GetInstanceState s1.d)).2) := by
  unfold GetState
  rw [hinit]
  simp only []
  rw [St.call_split, hans]

/-- C11: when the session is initialised and the status query answers,
`GetState` returns no error and maps the status string exactly: `ACTIVE` to
`Running`, `PAUSED` to `Paused`, `SUSPENDED` to `Saved`, `SHUTOFF` to
`Stopped`, `BUILDING` to `Starting`, `ERROR` to `Error`, and every other
string, such as `active`, to `None`; when the session initialisation or the
status query fails, it returns `None` together with that error. -/
theorem GetState_status_mapping (c : Env σ) (s : St σ) :
    (∀ s1 status,
      initCompute c (s.log "Get status for OpenStack instance...") = (none, s1) →
      (c.GetInstanceState s1.d s1.w).1 = .ok status →
      (GetState c s).1.2 = none ∧
      (status = "ACTIVE" → (GetState c s).1.1 = State.Running) ∧
      (status = "PAUSED" → (GetState c s).1.1 = State.Paused) ∧
      (status = "SUSPENDED" → (GetState c s).1.1 = State.Saved) ∧
      (status = "SHUTOFF" → (GetState c s).1.1 = State.Stopped) ∧
      (status = "BUILDING" → (GetState c s).1.1 = State.Starting) ∧
      (status = "ERROR" → (GetState c s).1.1 = State.Error) ∧
      (status ≠ "ACTIVE" → status ≠ "PAUSED" → status ≠ "SUSPENDED" → status ≠ "SHUTOFF" →
        status ≠ "BUILDING" → status ≠ "ERROR" → (GetState c s).1.1 = State.None) ∧
      (status = "active" → (GetState c s).1.1 = State.None)) ∧
    (∀ s1 err,
      initCompute c (s.log "Get status for OpenStack instance...") = (some err, s1) →
      (GetState c s).1 = (State.None, some err)) ∧
    (∀ s1 err,
      initCompute c (s.log "Get status for OpenStack instance...") = (none, s1) →
      (c.GetInstanceState s1.d s1.w).1 = .error err →
      (GetState c s).1 = (State.None, some err)) := by
  refine ⟨?_, ?_, ?_⟩
  · intro s1 status hinit hans
    rw [GetState_answered c s s1 status hinit hans]
    refine ⟨rfl, ?_, ?_, ?_, ?_, ?_, ?_, ?_, ?_⟩
    · intro h; rw [h]; rfl
    · intro h; rw [h]; rfl
    · intro h; rw [h]; rfl
    · intro h; rw [h]; rfl
    · intro h; rw [h]; rfl
    · intro h; rw [h]; rfl
    · intro h1 h2 h3 h4 h5 h6
      exact GetState_switch_other status h1 h2 h3 h4 h5 h6
    · intro h; rw [h]; rfl
  · intro s1 err hinit
    rw [GetState_init_fail c s s1 err hinit]
  · intro s1 err hinit hans
    rw [GetState_query_fail c s s1 err hinit hans]

/-- C11 (witness): `ACTIVE` is `Running`, `active` is `None`, and a failed
status query gives `None` with its error. -/
theorem GetState_status_mapping_witness :
    (GetState stubEnv (St.start createdDriver)).1 = (State.Running, none) ∧
    (GetState lowerCaseEnv (St.start createdDriver)).1 = (State.None, none) ∧
    (GetState noStatusEnv (St.start createdDriver)).1 =
      (State.None, some (GoError.errorString "status unavailable")) := by
  have h1 := (GetState_status_mapping stubEnv (St.start createdDriver)).1
    (initCompute stubEnv
      ((St.start createdDriver).log "Get status for OpenStack instance...")).2 "ACTIVE" rfl rfl
  have h2 := (GetState_status_mapping lowerCaseEnv (St.start createdDriver)).1
    (initCompute lowerCaseEnv
      ((St.start createdDriver).log "Get status for OpenStack instance...")).2 "active" rfl rfl
  have h3 := (GetState_status_mapping noStatusEnv (St.start createdDriver)).2.2
    (initCompute noStatusEnv
      ((St.start createdDriver).log "Get status for OpenStack instance...")).2
    (GoError.errorString "status unavailable") rfl rfl
  exact ⟨Prod.ext (h1.2.1 rfl) h1.1, Prod.ext (h2.2.2.2.2.2.2.2.2 rfl) h2.1, h3⟩

/-- The library function `net.JoinHostPort` on a host without a colon. -/
theorem JoinHostPort_plain (host port : String) (h : ':' ∉ host.data) :
    JoinHostPort host port = host ++ ":" ++ port := by
  unfold JoinHostPort
  rw [if_neg h]

/-- The library function `net.JoinHostPort` on a host with a colon. -/
theorem JoinHostPort_bracket (host port : String) (h : ':' ∈ host.data) :
    JoinHostPort host port = "[" ++ host ++ "]:" ++ port := by
  unfold JoinHostPort
  rw [if_pos h]

/-- Method `GetURL` when the state is obtained and is `Running`: what is left
is the IP location and the formatting. -/
theorem GetURL_running (c : Env σ) (s s1 : St σ)
    (hstate : GetState c s = ((State.Running, none), s1)) :
    GetURL c s =
      match GetIP c s1 with
      | (.error err, s2) => (("", some err), s2)
      | (.ok ip, s2) =>
        if ip = "" then (("", none), s2)
        else (("tcp://" ++ JoinHostPort ip "2376", none), s2) := by
  unfold GetURL MustBeRunning
  rw [hstate]
  simp only [ne_eq, not_true_eq_false, if_false]

/-- C12 (amended): when the state of the instance is obtained and is
`Running` and `GetIP` yields the address `ip`, `GetURL` returns no error and
the URL `tcp://ip:2376` for a non-empty `ip` without a colon, the URL
`tcp://[ip]:2376` for an `ip` with a colon, and the empty URL for the empty
`ip`; when the state is obtained and is not `Running`, or cannot be obtained,
`GetURL` returns the empty URL and an error. -/
theorem GetURL_running_or_not (c : Env σ) (s : St σ) :
    (∀ s1 s2 ip, GetState c s = ((State.Running, none), s1) → GetIP c s1 = (.ok ip, s2) →
      (ip ≠ "" → ':' ∉ ip.data → (GetURL c s).1 = ("tcp://" ++ ip ++ ":2376", none)) ∧
      (ip ≠ "" → ':' ∈ ip.data → (GetURL c s).1 = ("tcp://[" ++ ip ++ "]:2376", none)) ∧
      (ip = "" → (GetURL c s).1 = ("", none))) ∧
    (∀ s1 st, GetState c s = ((st, none), s1) → st ≠ State.Running →
      (GetURL c s).1 = ("", some ErrHostIsNotRunning)) ∧
    (∀ s1 st err, GetState c s = ((st, some err), s1) →
      (GetURL c s).1 = ("", some err)) := by
  refine ⟨?_, ?_, ?_⟩
  · intro s1 s2 ip hstate hip
    rw [GetURL_running c s s1 hstate, hip]
    refine ⟨?_, ?_, ?_⟩
    · intro hne hcolon
      simp only [if_neg hne, JoinHostPort_plain ip "2376" hcolon]
      simp only [String.append_assoc]
      rfl
    · intro hne hcolon
      simp only [if_neg hne, JoinHostPort_bracket ip "2376" hcolon]
      simp only [String.append_assoc]
      rfl
    · intro he
      simp only [if_pos he]
  · intro s1 st hstate hst
    unfold GetURL MustBeRunning
    rw [hstate]
    simp only [ne_eq, hst, not_false_eq_true, if_true]
  · intro s1 st err hstate
    unfold GetURL MustBeRunning
    rw [hstate]

/-- C12 (counterexample): the instance is running and `GetIP` yields the IPv6
address `fd00::5`, and the URL is `tcp://[fd00::5]:2376`, not
`tcp://fd00::5:2376`; the instance is running and `GetIP` yields the empty
address, and the URL is empty, not `tcp://:2376`. -/
theorem GetURL_form_counterexample :
    ((GetState stubEnv (St.start { createdDriver with IpVersion := 6 })).1 =
        (State.Running, none) ∧
      (GetIP stubEnv
        (GetState stubEnv (St.start { createdDriver with IpVersion := 6 })).2).1 =
          .ok "fd00::5" ∧
      (GetURL stubEnv (St.start { createdDriver with IpVersion := 6 })).1 =
        ("tcp://[fd00::5]:2376", none) ∧
      (GetURL stubEnv (St.start { createdDriver with IpVersion := 6 })).1 ≠
        ("tcp://" ++ "fd00::5" ++ ":2376", none)) ∧
    ((GetState blankAddressEnv (St.start createdDriver)).1 = (State.Running, none) ∧
      (GetIP blankAddressEnv (GetState blankAddressEnv (St.start createdDriver)).2).1 =
        .ok "" ∧
      (GetURL blankAddressEnv (St.start createdDriver)).1 = ("", none) ∧
      (GetURL blankAddressEnv (St.start createdDriver)).1 ≠
        ("tcp://" ++ "" ++ ":2376", none)) := by
  refine ⟨⟨rfl, rfl, rfl, ?_⟩, ⟨rfl, rfl, rfl, ?_⟩⟩ <;> decide

/-- C12 (witness): a running instance with the address `10.0.0.5`, and an
instance that is shut off. -/
theorem GetURL_running_or_not_witness :
    (GetURL stubEnv (St.start createdDriver)).1 = ("tcp://10.0.0.5:2376", none) ∧
    (GetURL shutOffEnv (St.start createdDriver)).1 =
      ("", some (GoError.errorString "Host is not running")) := by
  have h1 := ((GetURL_running_or_not stubEnv (St.start createdDriver)).1
    (GetState stubEnv (St.start createdDriver)).2
    (GetIP stubEnv (GetState stubEnv (St.start createdDriver)).2).2 "10.0.0.5" rfl rfl).1
    (by decide) (by decide)
  have h2 := (GetURL_running_or_not shutOffEnv (St.start createdDriver)).2.1
    (GetState shutOffEnv (St.start createdDriver)).2 State.Stopped rfl (by decide)
  exact ⟨h1, h2⟩

/-! ## Key pair name: theorems -/

/-- Session events are no key pair registrations. -/
theorem Event.isSession_keyPairNamed (name : String) (e : Event) (h : e.isSession = true) :
    e.keyPairNamed name = true := by
  cases e <;> simp_all [Event.isSession, Event.keyPairNamed]

/-- The character list of a sanitized name. -/
theorem sanitizeKeyPairName_data (s : String) :
    (sanitizeKeyPairName s).data = s.data.map (fun ch => if ch = '.' then '_' else ch) := rfl

/-- A sanitized name holds no dot. -/
theorem sanitizeKeyPairName_no_dot (s : String) : '.' ∉ (sanitizeKeyPairName s).data := by
  rw [sanitizeKeyPairName_data, List.mem_map]
  rintro ⟨ch, -, h⟩
  by_cases hch : ch = '.'
  · rw [if_pos hch] at h
    exact absurd h (by decide)
  · rw [if_neg hch] at h
    exact hch h

/-- The key pair registered by `createSSHKey` bears the sanitized name, which
is also the `KeyPairName` it leaves. -/
theorem createSSHKey_named (c : Env σ) (s : St σ) :
    Ext (Event.keyPairNamed (sanitizeKeyPairName s.d.KeyPairName)) s (createSSHKey c s).2 := by
  have key : ∀ s0 : St σ, Ext (Event.keyPairNamed (sanitizeKeyPairName s.d.KeyPairName)) s s0 →
      s0.d = { s.d with KeyPairName := sanitizeKeyPairName s.d.KeyPairName } →
      Ext (Event.keyPairNamed (sanitizeKeyPairName s.d.KeyPairName)) s
        (createSSHKey.body c s0).2 := by
    intro s0 e0 d0
    unfold createSSHKey.body
    rcases h1 : s0.call (Event.GenerateSSHKey (c.GetSSHKeyPath s0.d))
      (c.GenerateSSHKey (c.GetSSHKeyPath s0.d)) with ⟨r1, s1⟩
    have e1 := e0.trans (Ext.call _ h1 rfl)
    have d1 := (St.call_eq h1).2.1.trans d0
    cases r1 with
    | some err => exact e1
    | none =>
      simp only []
      rcases h2 : s1.call (Event.ReadFile (publicSSHKeyPath c s1.d))
        (c.ReadFile (publicSSHKeyPath c s1.d)) with ⟨r2, s2⟩
      have e2 := e1.trans (Ext.call _ h2 rfl)
      have d2 := (St.call_eq h2).2.1.trans d1
      cases r2 with
      | error err => exact e2
      | ok publicKey =>
        simp only []
        rcases h3 : initCompute c s2 with ⟨r3, s3⟩
        have e3 := e2.trans ((initCompute_ext c h3).mono (Event.isSession_keyPairNamed _))
        have d3 := (initCompute_d_eq c h3).trans d2
        cases r3 with
        | some err => exact e3
        | none =>
          simp only []
          rcases h4 : s3.call (Event.CreateKeyPair s3.d.KeyPairName publicKey)
            (c.CreateKeyPair s3.d s3.d.KeyPairName publicKey) with ⟨r4, s4⟩
          have hname : s3.d.KeyPairName = sanitizeKeyPairName s.d.KeyPairName := by rw [d3]
          have e4 := e3.trans (Ext.call _ h4 (by simp [Event.keyPairNamed, hname]))
          cases r4 <;> exact e4
  exact key _ ((Ext.of_trace_eq _ rfl).trans (Ext.log _ _ "Creating Key Pair..." rfl)) rfl

/-- C13: `sanitizeKeyPairName` keeps the length, puts `_` wherever the name
has `.`, keeps every other character in its place, and leaves no `.`, so
`host.example.1` becomes `host_example_1`; the name that `createSSHKey` passes
to `CreateKeyPair` is the sanitized `KeyPairName`, and on the generate path of
`Create` it is the sanitized generated name, which holds no `.` and is the
`KeyPairName` the driver keeps. -/
theorem sanitizeKeyPairName_spec (c : Env σ) (s : St σ) (name : String) :
    (sanitizeKeyPairName name).length = name.length ∧
    (∀ i : Nat, name.data[i]? = some '.' → (sanitizeKeyPairName name).data[i]? = some '_') ∧
    (∀ (i : Nat) (ch : Char), name.data[i]? = some ch → ch ≠ '.' →
      (sanitizeKeyPairName name).data[i]? = some ch) ∧
    '.' ∉ (sanitizeKeyPairName name).data ∧
    sanitizeKeyPairName "host.example.1" = "host_example_1" ∧
    (∀ n pub, Event.CreateKeyPair n pub ∈ newEvents s (createSSHKey c s).2 →
      n = sanitizeKeyPairName s.d.KeyPairName) ∧
    (s.d.KeyPairName = "" →
      (∀ n pub, Event.CreateKeyPair n pub ∈ newEvents s (Create.keyPair c s).2 →
        n = sanitizeKeyPairName (s.d.MachineName ++ "-" ++ (c.GenerateRandomID s.w).1) ∧
        '.' ∉ n.data) ∧
      (Create.keyPair c s).2.d.KeyPairName =
        sanitizeKeyPairName (s.d.MachineName ++ "-" ++ (c.GenerateRandomID s.w).1)) := by
  have named : ∀ {target : String} {a b : St σ}, Ext (Event.keyPairNamed target) a b →
      ∀ n pub, Event.CreateKeyPair n pub ∈ newEvents a b → n = target := by
    intro target a b h n pub hmem
    obtain ⟨l, hl, hp⟩ := h
    rw [newEvents_append a b l hl] at hmem
    have := hp _ hmem
    simpa [Event.keyPairNamed] using this
  refine ⟨?_, ?_, ?_, sanitizeKeyPairName_no_dot name, by decide, ?_, ?_⟩
  · show (sanitizeKeyPairName name).data.length = name.data.length
    rw [sanitizeKeyPairName_data, List.length_map]
  · intro i hi
    rw [sanitizeKeyPairName_data, List.getElem?_map, hi]
    rfl
  · intro i ch hi hch
    rw [sanitizeKeyPairName_data, List.getElem?_map, hi]
    simp [hch]
  · exact named (createSSHKey_named c s)
  · intro hempty
    have hkp : Create.keyPair c s = createSSHKey c
        { d := { s.d with
                 KeyPairName := s.d.MachineName ++ "-" ++ (c.GenerateRandomID s.w).1 },
          w := (c.GenerateRandomID s.w).2, trace := s.trace ++ [Event.GenerateRandomID] } := by
      unfold Create.keyPair
      rw [if_neg (by rw [hempty]; exact fun h => h rfl)]
      rfl
    rw [hkp]
    constructor
    · intro n pub hmem
      have e1 : Ext (Event.keyPairNamed
          (sanitizeKeyPairName (s.d.MachineName ++ "-" ++ (c.GenerateRandomID s.w).1))) s
          { d := { s.d with
                   KeyPairName := s.d.MachineName ++ "-" ++ (c.GenerateRandomID s.w).1 },
            w := (c.GenerateRandomID s.w).2, trace := s.trace ++ [Event.GenerateRandomID] } :=
        ⟨[Event.GenerateRandomID], rfl, fun e he => by rw [List.mem_singleton.mp he]; rfl⟩
      have hn := named (e1.trans (createSSHKey_named c _)) n pub hmem
      refine ⟨hn, ?_⟩
      rw [hn]
      exact sanitizeKeyPairName_no_dot _
    · rw [(createSSHKey_ext c _).2]

/-- C13 (witness): the machine name `host.example.1` on the generate path:
the key pair is registered, and kept, under `host_example_1-0123abcd`. -/
theorem sanitizeKeyPairName_spec_witness :
    Event.CreateKeyPair "host_example_1-0123abcd" "key material" ∈
      newEvents (St.start dottedConfig) (Create.keyPair stubEnv (St.start dottedConfig)).2 ∧
    '.' ∉ ("host_example_1-0123abcd" : String).data ∧
    (Create.keyPair stubEnv (St.start dottedConfig)).2.d.KeyPairName =
      "host_example_1-0123abcd" := by
  have h := (sanitizeKeyPairName_spec stubEnv (St.start dottedConfig)
    "host.example.1").2.2.2.2.2.2 rfl
  have hmem : Event.CreateKeyPair "host_example_1-0123abcd" "key material" ∈
      newEvents (St.start dottedConfig)
        (Create.keyPair stubEnv (St.start dottedConfig)).2 := by decide
  exact ⟨hmem, (h.1 "host_example_1-0123abcd" "key material" hmem).2, h.2.trans (by decide)⟩

end Openstack
